import Mathlib

/-!
Verification development for the guest-level workload discovery and
dependency-topology engine of `digital_twin_migrate`
(`src/digital_twin_migrate/guest_discovery.py` together with the data model in
`src/digital_twin_migrate/models_workload.py`).

The Python code is shallowly embedded: dataclasses become structures, the enum
classes become inductives carrying their string `value`, Python dicts become
association lists with replace-or-append insertion, and every external effect
(SSH/WinRM probe suites, database driver imports, direct database connections)
becomes an oracle parameter (`GuestEnv` / `DeepEnv`).  Machine floats that only
transport sizes are modelled as rationals; no claim depends on their
arithmetic.  Fallible remote calls are modelled with `Except String`, the
error string standing for `str(exc)` of the raised exception.
-/

set_option autoImplicit false

namespace AzureMigrate

-- ===========================================================================
-- Enums (models_workload.py)
-- ===========================================================================

/-- `DatabaseEngine(str, Enum)` from `models_workload.py`. -/
inductive DatabaseEngine where
  | mssql
  | mysql
  | postgresql
  | oracle
  | mongodb
  | redis
  | mariadb
  | unknown
deriving DecidableEq, Repr

/-- The `.value` string of each `DatabaseEngine` member. -/
def DatabaseEngine.value : DatabaseEngine → String
  | .mssql => "mssql"
  | .mysql => "mysql"
  | .postgresql => "postgresql"
  | .oracle => "oracle"
  | .mongodb => "mongodb"
  | .redis => "redis"
  | .mariadb => "mariadb"
  | .unknown => "unknown"

/-- `WebAppRuntime(str, Enum)` from `models_workload.py`. -/
inductive WebAppRuntime where
  | dotnet_framework
  | dotnet_core
  | java
  | php
  | python
  | nodejs
  | ruby
  | go
  | unknown
deriving DecidableEq, Repr

/-- The `.value` string of each `WebAppRuntime` member. -/
def WebAppRuntime.value : WebAppRuntime → String
  | .dotnet_framework => "dotnet_framework"
  | .dotnet_core => "dotnet_core"
  | .java => "java"
  | .php => "php"
  | .python => "python"
  | .nodejs => "nodejs"
  | .ruby => "ruby"
  | .go => "go"
  | .unknown => "unknown"

/-- `ContainerRuntimeType(str, Enum)` from `models_workload.py`. -/
inductive ContainerRuntimeType where
  | docker
  | containerd
  | podman
  | crio
  | unknown
deriving DecidableEq, Repr

/-- `OrchestratorType(str, Enum)` from `models_workload.py`. -/
inductive OrchestratorType where
  | kubernetes
  | docker_swarm
  | openshift
  | nomad
  | unknown
deriving DecidableEq, Repr

-- ===========================================================================
-- Discovered-workload records (models_workload.py)
-- ===========================================================================

/-- `DiscoveredDatabase` dataclass.  The fields after `edition` are the
attributes the deep-probe functions of `guest_discovery.py` set dynamically on
the (non-slotted) dataclass instance (`host`, `discovery_method`,
`connection_error`, `total_size_gb`, `schema_count`, `table_count`,
`max_connections`, `active_connections`, `users`); before being assigned they
read as their neutral defaults here. -/
structure DiscoveredDatabase where
  vm_name : String
  engine : DatabaseEngine
  version : String
  instance_name : String
  port : Nat
  databases : List String
  size_mb : Rat
  status : String
  edition : String
  host : String
  discovery_method : String
  connection_error : String
  total_size_gb : Rat
  schema_count : Nat
  table_count : Nat
  max_connections : Nat
  active_connections : Nat
  users : List String
deriving DecidableEq, Repr

/-- Dataclass defaults of `DiscoveredDatabase` (plus the unset dynamic
attributes). -/
def DiscoveredDatabase.empty : DiscoveredDatabase :=
  ⟨"", .unknown, "", "", 0, [], 0, "running", "", "", "", "", 0, 0, 0, 0, 0, []⟩

/-- `DiscoveredWebApp` dataclass. -/
structure DiscoveredWebApp where
  vm_name : String
  runtime : WebAppRuntime
  runtime_version : String
  framework : String
  app_name : String
  port : Nat
  binding : String
  app_pool : String
  status : String
  process_name : String
  pid : Nat
deriving DecidableEq, Repr

/-- Dataclass defaults of `DiscoveredWebApp`. -/
def DiscoveredWebApp.empty : DiscoveredWebApp :=
  ⟨"", .unknown, "", "", "", 0, "", "", "running", "", 0⟩

/-- `ContainerInfo` dataclass. -/
structure ContainerInfo where
  container_id : String
  name : String
  image : String
  status : String
  ports : List String
deriving DecidableEq, Repr

/-- `DiscoveredContainerRuntime` dataclass. -/
structure DiscoveredContainerRuntime where
  vm_name : String
  runtime : ContainerRuntimeType
  version : String
  containers : List ContainerInfo
  total_containers : Nat
  running_containers : Nat
deriving DecidableEq, Repr

/-- `DiscoveredOrchestrator` dataclass. -/
structure DiscoveredOrchestrator where
  vm_name : String
  type : OrchestratorType
  version : String
  role : String
  cluster_name : String
  node_count : Nat
  pod_count : Nat
  namespace_count : Nat
deriving DecidableEq, Repr

/-- `ListeningPort` dataclass. -/
structure ListeningPort where
  port : Nat
  protocol : String
  process : String
  pid : Nat
  address : String
deriving DecidableEq, Repr

/-- `EstablishedConnection` dataclass: an outbound established connection
observed on the scanned VM. -/
structure EstablishedConnection where
  local_port : Nat
  remote_ip : String
  remote_port : Nat
  process : String
  pid : Nat
deriving DecidableEq, Repr

/-- `WorkloadDependency` dataclass: a directed dependency edge. -/
structure WorkloadDependency where
  source_vm : String
  source_workload : String
  target_vm : String
  target_workload : String
  target_port : Nat
  protocol : String
  connection_count : Nat
deriving DecidableEq, Repr

/-- `VMWorkloads` dataclass: the per-VM scan record. -/
structure VMWorkloads where
  vm_name : String
  ip_addresses : List String
  os_family : String
  scan_status : String
  scan_error : String
  databases : List DiscoveredDatabase
  web_apps : List DiscoveredWebApp
  container_runtimes : List DiscoveredContainerRuntime
  orchestrators : List DiscoveredOrchestrator
  listening_ports : List ListeningPort
  established_connections : List EstablishedConnection
deriving DecidableEq, Repr

/-- Dataclass defaults of `VMWorkloads` (`scan_status = "pending"`). -/
def VMWorkloads.empty : VMWorkloads :=
  ⟨"", [], "", "pending", "", [], [], [], [], [], []⟩

/-- `WorkloadDiscoveryResult` dataclass: aggregate result of one run. -/
structure WorkloadDiscoveryResult where
  vm_workloads : List VMWorkloads
  dependencies : List WorkloadDependency
  total_databases : Nat
  total_webapps : Nat
  total_containers : Nat
  total_orchestrators : Nat
  scanned_count : Nat
  error_count : Nat
  skipped_count : Nat
deriving DecidableEq, Repr

/-- Dataclass defaults of `WorkloadDiscoveryResult`. -/
def WorkloadDiscoveryResult.empty : WorkloadDiscoveryResult :=
  ⟨[], [], 0, 0, 0, 0, 0, 0, 0⟩

-- ===========================================================================
-- Credentials (guest_discovery.py)
-- ===========================================================================

/-- `Credential` for SSH / WinRM access. -/
structure Credential where
  username : String
  password : String
  port : Nat
  key_file : String
  use_sudo : Bool
deriving DecidableEq, Repr

/-- `DatabaseCredential` for direct database server connections.  Instances
built by the Python constructor always have a lower-cased engine tag and the
port defaulted from the engine; `mkDatabaseCredential` below reproduces that
constructor. -/
structure DatabaseCredential where
  engine : String
  username : String
  password : String
  port : Nat
  host : String
deriving DecidableEq, Repr

/-- Python's `str.lower()` on the engine tags involved: character-wise ASCII
lowering, computed structurally over the string's character list. -/
def strLower (s : String) : String :=
  ⟨s.data.map Char.toLower⟩

/-- Whether `pat` is an initial segment of `s` (character lists). -/
def charsStartWith : List Char → List Char → Bool
  | _, [] => true
  | [], _ :: _ => false
  | c :: cs, p :: ps => c == p && charsStartWith cs ps

/-- Whether `pat` occurs inside `s` (character lists). -/
def charsContain : List Char → List Char → Bool
  | [], pat => charsStartWith [] pat
  | c :: cs, pat => charsStartWith (c :: cs) pat || charsContain cs pat

/-- `DatabaseCredential._default_port`: the engine-default port table of the
constructor. -/
def defaultPort (engine : String) : Nat :=
  if engine = "mssql" then 1433
  else if engine = "mysql" then 3306
  else if engine = "mariadb" then 3306
  else if engine = "postgresql" then 5432
  else if engine = "oracle" then 1521
  else if engine = "mongodb" then 27017
  else if engine = "redis" then 6379
  else 0

/-- The `DatabaseCredential.__init__` constructor: lower-cases the engine tag
and replaces a zero port by the engine default (`port or self._default_port()`,
where `0` is falsy). -/
def mkDatabaseCredential (engine username password : String) (port : Nat)
    (host : String) : DatabaseCredential :=
  let e := strLower engine
  ⟨e, username, password, if port ≠ 0 then port else defaultPort e, host⟩

-- ===========================================================================
-- Direct database probing (guest_discovery.py, `_deep_probe_*`)
-- ===========================================================================

/-- The data a successful direct database connection yields: the outcome of
the engine-specific metadata queries each `_deep_probe_*` function runs.  The
queries themselves go to an external server, so their results are oracle
data. -/
structure DeepInfo where
  version : String
  edition : String
  databases : List String
  table_count : Nat
  schema_count : Nat
  total_size_gb : Rat
  size_mb : Rat
  max_connections : Nat
  active_connections : Nat
  users : List String
deriving DecidableEq, Repr

/-- Oracle for the external world of the deep prober: per engine, whether the
Python client library imports (`*_driver`), and what a direct connection
attempt returns (`Except.error` models the raised exception's `str(exc)`,
`Except.ok` a successful connection plus its query results). -/
structure DeepEnv where
  mysql_driver : Bool
  postgres_driver : Bool
  mssql_driver : Bool
  mongo_driver : Bool
  redis_driver : Bool
  mysql_connect : String → Nat → String → String → Except String DeepInfo
  postgres_connect : String → Nat → String → String → Except String DeepInfo
  mssql_connect : String → Nat → String → String → Except String DeepInfo
  mongo_connect : String → Nat → String → String → Except String DeepInfo
  redis_connect : String → Nat → String → String → Except String DeepInfo

/-- Whether `pat` occurs as a substring of `s` (Python's `pat in s`). -/
def stringContains (s pat : String) : Bool :=
  charsContain s.data pat.data

/-- `existing or DiscoveredDatabase(engine=..., port=..., host=...)` — the
record a probe starts from. -/
def probeBase (engine : DatabaseEngine) (port : Nat) (host : String)
    (existing : Option DiscoveredDatabase) : DiscoveredDatabase :=
  existing.getD { DiscoveredDatabase.empty with engine := engine, port := port, host := host }

/-- `_deep_probe_mysql`: connect directly to MySQL/MariaDB.  On success the
version string may reclassify the engine as MariaDB; `schema_count` is the
number of user databases and `size_mb` is `total_size_gb * 1024`. -/
def deep_probe_mysql (env : DeepEnv) (host : String) (db_cred : DatabaseCredential)
    (existing : Option DiscoveredDatabase) : DiscoveredDatabase :=
  let port := if db_cred.port ≠ 0 then db_cred.port else 3306
  let db := probeBase .mysql port host existing
  let db := { db with host := host, discovery_method := "direct_connect" }
  if !env.mysql_driver then
    { db with connection_error := "pymysql or mysql-connector-python not installed" }
  else
    match env.mysql_connect host port db_cred.username db_cred.password with
    | .error exc => { db with connection_error := exc }
    | .ok info =>
      { db with
        version := info.version
        engine := if stringContains (strLower info.version) "mariadb" then .mariadb else db.engine
        databases := info.databases
        table_count := info.table_count
        schema_count := info.databases.length
        total_size_gb := info.total_size_gb
        size_mb := info.total_size_gb * 1024
        max_connections := info.max_connections
        active_connections := info.active_connections
        users := info.users
        edition := info.edition
        instance_name := if db.instance_name ≠ "" then db.instance_name else "default"
        status := "running"
        connection_error := "" }

/-- `_deep_probe_postgresql`: connect directly to PostgreSQL. -/
def deep_probe_postgresql (env : DeepEnv) (host : String) (db_cred : DatabaseCredential)
    (existing : Option DiscoveredDatabase) : DiscoveredDatabase :=
  let port := if db_cred.port ≠ 0 then db_cred.port else 5432
  let db := probeBase .postgresql port host existing
  let db := { db with host := host, discovery_method := "direct_connect" }
  if !env.postgres_driver then
    { db with connection_error := "psycopg2 not installed" }
  else
    match env.postgres_connect host port db_cred.username db_cred.password with
    | .error exc => { db with connection_error := exc }
    | .ok info =>
      { db with
        version := info.version
        databases := info.databases
        schema_count := info.schema_count
        table_count := info.table_count
        total_size_gb := info.total_size_gb
        size_mb := info.total_size_gb * 1024
        max_connections := info.max_connections
        active_connections := info.active_connections
        users := info.users
        edition := info.edition
        instance_name := if db.instance_name ≠ "" then db.instance_name else "default"
        status := "running"
        connection_error := "" }

/-- `_deep_probe_mssql`: connect directly to SQL Server. -/
def deep_probe_mssql (env : DeepEnv) (host : String) (db_cred : DatabaseCredential)
    (existing : Option DiscoveredDatabase) : DiscoveredDatabase :=
  let port := if db_cred.port ≠ 0 then db_cred.port else 1433
  let db := probeBase .mssql port host existing
  let db := { db with host := host, discovery_method := "direct_connect" }
  if !env.mssql_driver then
    { db with connection_error := "pymssql not installed" }
  else
    match env.mssql_connect host port db_cred.username db_cred.password with
    | .error exc => { db with connection_error := exc }
    | .ok info =>
      { db with
        version := info.version
        edition := info.edition
        databases := info.databases
        table_count := info.table_count
        schema_count := info.schema_count
        total_size_gb := info.total_size_gb
        size_mb := info.total_size_gb * 1024
        max_connections := info.max_connections
        active_connections := info.active_connections
        users := info.users
        instance_name := if db.instance_name ≠ "" then db.instance_name else "MSSQLSERVER"
        status := "running"
        connection_error := "" }

/-- `_deep_probe_mongodb`: connect directly to MongoDB; `schema_count` is the
number of non-system databases. -/
def deep_probe_mongodb (env : DeepEnv) (host : String) (db_cred : DatabaseCredential)
    (existing : Option DiscoveredDatabase) : DiscoveredDatabase :=
  let port := if db_cred.port ≠ 0 then db_cred.port else 27017
  let db := probeBase .mongodb port host existing
  let db := { db with host := host, discovery_method := "direct_connect" }
  if !env.mongo_driver then
    { db with connection_error := "pymongo not installed" }
  else
    match env.mongo_connect host port db_cred.username db_cred.password with
    | .error exc => { db with connection_error := exc }
    | .ok info =>
      { db with
        version := info.version
        databases := info.databases
        table_count := info.table_count
        schema_count := info.databases.length
        total_size_gb := info.total_size_gb
        size_mb := info.total_size_gb * 1024
        users := info.users
        active_connections := info.active_connections
        max_connections := info.max_connections
        instance_name := if db.instance_name ≠ "" then db.instance_name else "default"
        status := "running"
        connection_error := "" }

/-- `_deep_probe_redis`: connect directly to Redis; the database list defaults
to `["db0"]` when the INFO keyspace section is empty, and `size_mb` is derived
independently of `total_size_gb`. -/
def deep_probe_redis (env : DeepEnv) (host : String) (db_cred : DatabaseCredential)
    (existing : Option DiscoveredDatabase) : DiscoveredDatabase :=
  let port := if db_cred.port ≠ 0 then db_cred.port else 6379
  let db := probeBase .redis port host existing
  let db := { db with host := host, discovery_method := "direct_connect" }
  if !env.redis_driver then
    { db with connection_error := "redis package not installed" }
  else
    match env.redis_connect host port db_cred.username db_cred.password with
    | .error exc => { db with connection_error := exc }
    | .ok info =>
      { db with
        version := info.version
        active_connections := info.active_connections
        max_connections := info.max_connections
        edition := info.edition
        databases := if info.databases.isEmpty then ["db0"] else info.databases
        table_count := info.table_count
        total_size_gb := info.total_size_gb
        size_mb := info.size_mb
        instance_name := if db.instance_name ≠ "" then db.instance_name else "default"
        status := "running"
        connection_error := "" }

/-- The type of one deep-probe dispatch entry. -/
def DeepProbeFn : Type :=
  DeepEnv → String → DatabaseCredential → Option DiscoveredDatabase → DiscoveredDatabase

/-- `_DEEP_PROBE_MAP.get(...)`: the engine-tag → probe-function dispatch table
(`mysql`, `mariadb`, `postgresql`, `mssql`, `mongodb`, `redis`; anything else —
including `oracle` — has no entry). -/
def deepProbeMapGet (engine : String) : Option DeepProbeFn :=
  if engine = "mysql" then some deep_probe_mysql
  else if engine = "mariadb" then some deep_probe_mysql
  else if engine = "postgresql" then some deep_probe_postgresql
  else if engine = "mssql" then some deep_probe_mssql
  else if engine = "mongodb" then some deep_probe_mongodb
  else if engine = "redis" then some deep_probe_redis
  else none

/-- `_ENGINE_PORT_MAP` in its dict insertion order. -/
def enginePortMap : List (Nat × String) :=
  [(3306, "mysql"), (5432, "postgresql"), (1433, "mssql"),
   (1521, "oracle"), (27017, "mongodb"), (6379, "redis")]

-- ===========================================================================
-- deep_probe_databases
-- ===========================================================================

/-- The pass-1 matching condition of `deep_probe_databases`:
`cred.engine in (eng_key, "auto") or (cred.port and cred.port == db.port)`. -/
def credMatchesDb (cred : DatabaseCredential) (eng_key : String)
    (db : DiscoveredDatabase) : Bool :=
  cred.engine == eng_key || cred.engine == "auto" ||
    (cred.port != 0 && cred.port == db.port)

/-- The inner credential loop of pass 1 for one database: scan the indexed
credential list for the first matching credential; the `break` fires only when
the database's engine has a dispatch entry, so for an unmapped engine the loop
runs to the end without selecting anything. -/
def pass1_find (db : DiscoveredDatabase) :
    List (Nat × DatabaseCredential) → Option (Nat × DatabaseCredential)
  | [] => none
  | (ci, cred) :: rest =>
    if credMatchesDb cred db.engine.value db then
      match deepProbeMapGet db.engine.value with
      | some _ => some (ci, cred)
      | none => pass1_find db rest
    else pass1_find db rest

/-- One pass-1 iteration: enrich the database in place when a credential was
selected, record the consumed credential index, and append the (possibly
enriched) record to the results. -/
def pass1_step (env : DeepEnv) (host : String) (indexed : List (Nat × DatabaseCredential))
    (acc : List DiscoveredDatabase × List Nat) (db : DiscoveredDatabase) :
    List DiscoveredDatabase × List Nat :=
  match pass1_find db indexed with
  | some (ci, cred) =>
    match deepProbeMapGet db.engine.value with
    | some f => (acc.1 ++ [f env host cred (some db)], acc.2 ++ [ci])
    | none => (acc.1 ++ [db], acc.2)
  | none => (acc.1 ++ [db], acc.2)

/-- Pass 1 of `deep_probe_databases`: enrich the existing databases and
collect the set of consumed credential indices. -/
def deep_probe_pass1 (env : DeepEnv) (host : String)
    (indexed : List (Nat × DatabaseCredential)) (existing : List DiscoveredDatabase) :
    List DiscoveredDatabase × List Nat :=
  existing.foldl (pass1_step env host indexed) ([], [])

/-- The inner loop of the `auto`-credential branch of pass 2: walk
`_ENGINE_PORT_MAP`, probing every engine-default port not already covered;
a success extends both the covered-engine set and the results. -/
def pass2_auto_step (env : DeepEnv) (host : String) (cred : DatabaseCredential)
    (acc : List (String × Nat) × List DiscoveredDatabase) (pe : Nat × String) :
    List (String × Nat) × List DiscoveredDatabase :=
  let port := pe.1
  let eng_name := pe.2
  if (eng_name, port) ∈ acc.1 then acc
  else
    match deepProbeMapGet eng_name with
    | none => acc
    | some f =>
      let auto_cred := mkDatabaseCredential eng_name cred.username cred.password port cred.host
      let new_db := f env host auto_cred none
      if new_db.connection_error = "" then (acc.1 ++ [(eng_name, port)], acc.2 ++ [new_db])
      else acc

/-- One pass-2 iteration of `deep_probe_databases` for an indexed credential:
skip consumed credentials; an `auto` credential tries every engine-default
port, any other tag probes its own engine directly, silently dropping failed
attempts (`if not new_db.connection_error`). -/
def pass2_step (env : DeepEnv) (host : String) (used : List Nat)
    (acc : List (String × Nat) × List DiscoveredDatabase)
    (ic : Nat × DatabaseCredential) : List (String × Nat) × List DiscoveredDatabase :=
  let ci := ic.1
  let cred := ic.2
  if ci ∈ used then acc
  else if cred.engine = "auto" then
    enginePortMap.foldl (pass2_auto_step env host cred) acc
  else
    let eng_key := cred.engine
    let port := if cred.port ≠ 0 then cred.port else defaultPort eng_key
    if (eng_key, port) ∈ acc.1 then acc
    else
      match deepProbeMapGet eng_key with
      | none => acc
      | some f =>
        let new_db := f env host cred none
        if new_db.connection_error = "" then (acc.1, acc.2 ++ [new_db])
        else acc

/-- `deep_probe_databases`: enrich or create `DiscoveredDatabase` entries with
direct database credentials.  Pass 1 enriches the existing records in place
(the Python loop mutates each `db` and appends it to `results`); the covered
(engine, port) set is then computed from those enriched records (the Python
set comprehension runs over the mutated `existing` list), and pass 2 appends
newly discovered engines from the credentials pass 1 did not consume. -/
def deep_probe_databases (env : DeepEnv) (host : String)
    (db_creds : List DatabaseCredential) (existing_dbs : List DiscoveredDatabase) :
    List DiscoveredDatabase :=
  let indexed := db_creds.enum
  let p1 := deep_probe_pass1 env host indexed existing_dbs
  let existing_engines := p1.1.map (fun db => (db.engine.value, db.port))
  let p2 := indexed.foldl (pass2_step env host p1.2) (existing_engines, [])
  p1.1 ++ p2.2

-- ===========================================================================
-- Main discovery orchestrator (GuestDiscoverer)
-- ===========================================================================

/-- What one full OS probe suite returns on success: the tuple
`(ports, conns, databases, web_apps, containers, orchestrators)` produced by
`_try_linux_cred` / `_try_windows_cred`. -/
structure ProbePayload where
  ports : List ListeningPort
  conns : List EstablishedConnection
  dbs : List DiscoveredDatabase
  webapps : List DiscoveredWebApp
  containers : List DiscoveredContainerRuntime
  orchestrators : List DiscoveredOrchestrator
deriving DecidableEq, Repr

/-- Oracle for the remote transports: `linux ip cred` models
`_try_linux_cred` (SSH probe suite) and `windows ip cred` models
`_try_windows_cred` (WinRM probe suite); an `Except.error` is any exception
the attempt raises (connect, auth, or a probe failure), an `Except.ok` the
full suite's output.  `deep` is the world the deep database prober sees. -/
structure GuestEnv where
  linux : String → Credential → Except String ProbePayload
  windows : String → Credential → Except String ProbePayload
  deep : DeepEnv

/-- The per-OS credential loop of `discover_vm`: try each credential in order,
remembering the last failure; the first success clears the failure and stops.
Returns `(payload?, last_err?)` exactly as the Python loop leaves
`(assigned results, last_err)`. -/
def cred_loop (attempt : Credential → Except String ProbePayload) :
    List Credential → Option String → Option ProbePayload × Option String
  | [], lastErr => (none, lastErr)
  | c :: rest, _ =>
    match attempt c with
    | .ok p => (some p, none)
    | .error exc => cred_loop attempt rest (some exc)

/-- Helper: set `vm_name` on a child database record. -/
def stampDb (vm_name : String) (db : DiscoveredDatabase) : DiscoveredDatabase :=
  { db with vm_name := vm_name }

/-- Helper: set `vm_name` on a child web-app record. -/
def stampWebApp (vm_name : String) (wa : DiscoveredWebApp) : DiscoveredWebApp :=
  { wa with vm_name := vm_name }

/-- Helper: set `vm_name` on a child container-runtime record. -/
def stampContainer (vm_name : String) (cr : DiscoveredContainerRuntime) :
    DiscoveredContainerRuntime :=
  { cr with vm_name := vm_name }

/-- Helper: set `vm_name` on a child orchestrator record. -/
def stampOrch (vm_name : String) (orch : DiscoveredOrchestrator) : DiscoveredOrchestrator :=
  { orch with vm_name := vm_name }

/-- The code `discover_vm` runs after the credential loop succeeds (or, were
the loop skipped, on the untouched record): stamp `vm_name` onto the child
records, optionally run the deep database probes (`if db_creds:`), re-stamp
any new database entries, and mark the scan complete. -/
def scan_tail (env : GuestEnv) (vm_name ip : String)
    (db_creds : List DatabaseCredential) (wl : VMWorkloads) : VMWorkloads :=
  let wl := { wl with
    databases := wl.databases.map (stampDb vm_name)
    web_apps := wl.web_apps.map (stampWebApp vm_name)
    container_runtimes := wl.container_runtimes.map (stampContainer vm_name)
    orchestrators := wl.orchestrators.map (stampOrch vm_name) }
  let wl :=
    if db_creds.isEmpty then wl
    else { wl with
      databases := (deep_probe_databases env.deep ip db_creds wl.databases).map
        (stampDb vm_name) }
  { wl with scan_status := "complete" }

/-- Resolution of the credential loop's outcome inside `discover_vm`'s
`try` block: a success publishes exactly the winning credential's payload and
proceeds; a recorded last error is re-raised and caught at the per-VM
boundary (`scan_status = "error"`); no payload and no error (an empty
credential list, short-circuited earlier by the caller) falls through to the
tail untouched. -/
def finish_scan (env : GuestEnv) (vm_name ip : String)
    (db_creds : List DatabaseCredential) (wl : VMWorkloads) :
    Option ProbePayload × Option String → VMWorkloads
  | (some p, _) =>
    scan_tail env vm_name ip db_creds
      { wl with
        listening_ports := p.ports
        established_connections := p.conns
        databases := p.dbs
        web_apps := p.webapps
        container_runtimes := p.containers
        orchestrators := p.orchestrators }
  | (none, some exc) => { wl with scan_status := "error", scan_error := exc }
  | (none, none) => scan_tail env vm_name ip db_creds wl

/-- `GuestDiscoverer.discover_vm`: run all probes against a single VM, trying
multiple credentials, then deep database probing.  Credential lists arrive
already normalised (the Python method wraps a single `Credential` into a
one-element list and replaces `None` by `[]`). -/
def discover_vm (env : GuestEnv) (vm_name ip os_family : String)
    (linux_creds windows_creds : List Credential)
    (db_creds : List DatabaseCredential) : VMWorkloads :=
  let wl := { VMWorkloads.empty with
    vm_name := vm_name, ip_addresses := [ip], os_family := os_family }
  if os_family = "linux" then
    if linux_creds.isEmpty then
      { wl with scan_status := "skipped", scan_error := "No Linux credentials provided" }
    else
      finish_scan env vm_name ip db_creds { wl with scan_status := "scanning" }
        (cred_loop (env.linux ip) linux_creds none)
  else if os_family = "windows" then
    if windows_creds.isEmpty then
      { wl with scan_status := "skipped", scan_error := "No Windows credentials provided" }
    else
      finish_scan env vm_name ip db_creds { wl with scan_status := "scanning" }
        (cred_loop (env.windows ip) windows_creds none)
  else
    { wl with
      scan_status := "skipped"
      scan_error := "Unsupported OS family: " ++ os_family }

/-- One VM target handed to `discover_all`: the dict with keys `name`, `ip`
and `os_family`. -/
structure VMTarget where
  name : String
  ip : String
  os_family : String
deriving DecidableEq, Repr

/-- The `_scan` closure of `discover_all`, minus its progress bookkeeping. -/
def scanTarget (env : GuestEnv) (linux_creds windows_creds : List Credential)
    (db_creds : List DatabaseCredential) (t : VMTarget) : VMWorkloads :=
  discover_vm env t.name t.ip t.os_family linux_creds windows_creds db_creds

/-- The aggregate-counter loop at the end of `discover_all`. -/
def tally_step (r : WorkloadDiscoveryResult) (vmw : VMWorkloads) : WorkloadDiscoveryResult :=
  let r := { r with
    total_databases := r.total_databases + vmw.databases.length
    total_webapps := r.total_webapps + vmw.web_apps.length
    total_containers := r.total_containers + vmw.container_runtimes.length
    total_orchestrators := r.total_orchestrators + vmw.orchestrators.length }
  if vmw.scan_status = "complete" then { r with scanned_count := r.scanned_count + 1 }
  else if vmw.scan_status = "error" then { r with error_count := r.error_count + 1 }
  else if vmw.scan_status = "skipped" then { r with skipped_count := r.skipped_count + 1 }
  else r

/-- Placeholder for the dependency builder, defined below; forward declared so
`discover_all` can be stated before the topology section. -/
def build_dependencies_decl : Type := List VMWorkloads → List WorkloadDependency

-- ===========================================================================
-- Dependency topology builder (_build_dependencies)
-- ===========================================================================

/-- Replace-or-append insertion: the effect of `d[k] = v` on a Python dict
rendered as an association list with unique keys. -/
def dictInsert {K V : Type} [DecidableEq K] : List (K × V) → K → V → List (K × V)
  | [], k, v => [(k, v)]
  | (k', v') :: rest, k, v =>
    if k' = k then (k', v) :: rest else (k', v') :: dictInsert rest k v

/-- Dict lookup `d.get(k)`. -/
def dictGet {K V : Type} [DecidableEq K] : List (K × V) → K → Option V
  | [], _ => none
  | (k', v') :: rest, k => if k' = k then some v' else dictGet rest k

/-- The `ip → vm_name` index of `_build_dependencies` (later VMs overwrite
earlier ones on a duplicated address, as dict assignment does). -/
def ip_to_vm (vm_workloads : List VMWorkloads) : List (String × String) :=
  vm_workloads.foldl
    (fun m vmw => vmw.ip_addresses.foldl (fun m ip => dictInsert m ip vmw.vm_name) m) []

/-- The label a discovered database contributes to the (VM, port) index:
`f"{db.engine.value}:{db.instance_name}"`. -/
def dbLabel (db : DiscoveredDatabase) : String :=
  db.engine.value ++ ":" ++ db.instance_name

/-- The label a web app contributes: `f"{wa.runtime.value}:{wa.framework}"`. -/
def webLabel (wa : DiscoveredWebApp) : String :=
  wa.runtime.value ++ ":" ++ wa.framework

/-- The label a raw listening port contributes:
`lp.process or f"port-{lp.port}"` (the process name, or the generic port label
when the process name is empty, i.e. falsy). -/
def portLabel (lp : ListeningPort) : String :=
  if lp.process ≠ "" then lp.process else "port-" ++ toString lp.port

/-- One VM's contribution to the `(vm_name, port) → workload` index: all
databases (unconditional dict writes), then all web apps with a truthy port
(unconditional writes), then the raw listening ports, written only when the
key is still absent. -/
def port_map_step (m : List ((String × Nat) × String)) (vmw : VMWorkloads) :
    List ((String × Nat) × String) :=
  let m := vmw.databases.foldl
    (fun m db => dictInsert m (vmw.vm_name, db.port) (dbLabel db)) m
  let m := vmw.web_apps.foldl
    (fun m wa => if wa.port ≠ 0 then dictInsert m (vmw.vm_name, wa.port) (webLabel wa) else m) m
  vmw.listening_ports.foldl
    (fun m lp =>
      if (dictGet m (vmw.vm_name, lp.port)).isSome then m
      else dictInsert m (vmw.vm_name, lp.port) (portLabel lp)) m

/-- The full `(vm_name, port) → workload description` index. -/
def port_to_workload (vm_workloads : List VMWorkloads) : List ((String × Nat) × String) :=
  vm_workloads.foldl port_map_step []

/-- The established connections in iteration order, each paired with the name
of the VM it was observed on (the only field of `vmw` the edge loop reads). -/
def connPairs (vm_workloads : List VMWorkloads) : List (String × EstablishedConnection) :=
  (vm_workloads.map
    (fun vmw => vmw.established_connections.map (fun c => (vmw.vm_name, c)))).flatten

/-- The edge one established connection would produce, before deduplication:
`None` when the remote address resolves to no scanned VM (or to a falsy VM
name) or when the connection points back at its own VM. -/
def depCandidate (ipMap : List (String × String))
    (p2w : List ((String × Nat) × String)) (src : String)
    (conn : EstablishedConnection) : Option WorkloadDependency :=
  match dictGet ipMap conn.remote_ip with
  | none => none
  | some target_vm =>
    if target_vm = "" then none
    else if target_vm = src then none
    else some
      { source_vm := src
        source_workload := if conn.process ≠ "" then conn.process else "pid-" ++ toString conn.pid
        target_vm := target_vm
        target_workload := (dictGet p2w (target_vm, conn.remote_port)).getD
          ("port-" ++ toString conn.remote_port)
        target_port := conn.remote_port
        protocol := "tcp"
        connection_count := 1 }

/-- All candidate edges of a result set, in the loop's iteration order. -/
def dep_candidates (vm_workloads : List VMWorkloads) : List WorkloadDependency :=
  (connPairs vm_workloads).filterMap
    (fun pc => depCandidate (ip_to_vm vm_workloads) (port_to_workload vm_workloads) pc.1 pc.2)

/-- The deduplication key: `(vmw.vm_name, target_vm, conn.remote_port)`. -/
def depKey (d : WorkloadDependency) : String × String × Nat :=
  (d.source_vm, d.target_vm, d.target_port)

/-- The `seen`-set loop of `_build_dependencies`: keep only the first edge for
each key (the Python loop threads one growing `seen` set through the
candidate stream). -/
def dedup_deps (seen : List (String × String × Nat)) :
    List WorkloadDependency → List WorkloadDependency
  | [] => []
  | c :: rest =>
    if depKey c ∈ seen then dedup_deps seen rest
    else c :: dedup_deps (depKey c :: seen) rest

/-- `_build_dependencies`: cross-reference established connections against the
address and port indexes to build the workload dependency edge list. -/
def build_dependencies (vm_workloads : List VMWorkloads) : List WorkloadDependency :=
  dedup_deps [] (dep_candidates vm_workloads)

/-- `GuestDiscoverer.discover_all`: one scan task per VM target on a bounded
pool.  The pool's scheduling is modelled by `completion_order`: the order in
which `as_completed` yields the finished futures, some permutation of
`vm_targets`.  `max_workers` bounds the pool and therefore influences only
which permutations can occur; it does not appear in the result.  Each task's
record is appended as its future completes, the dependency graph is built
behind the join barrier, and the aggregate counters are tallied last. -/
def discover_all (env : GuestEnv) (_vm_targets : List VMTarget)
    (linux_creds windows_creds : List Credential) (db_creds : List DatabaseCredential)
    (max_workers : Nat) (completion_order : List VMTarget) : WorkloadDiscoveryResult :=
  let _ := max_workers
  let scans := completion_order.map (scanTarget env linux_creds windows_creds db_creds)
  let base := { WorkloadDiscoveryResult.empty with
    vm_workloads := scans, dependencies := build_dependencies scans }
  scans.foldl tally_step base

-- ===========================================================================
-- Concrete environments and fixtures used by witnesses and counterexamples
-- ===========================================================================

/-- A deep-probe world where every driver is installed but every direct
connection attempt fails with a connection error. -/
def unreachableDeepEnv : DeepEnv :=
  { mysql_driver := true
    postgres_driver := true
    mssql_driver := true
    mongo_driver := true
    redis_driver := true
    mysql_connect := fun _ _ _ _ => .error "timed out"
    postgres_connect := fun _ _ _ _ => .error "timed out"
    mssql_connect := fun _ _ _ _ => .error "timed out"
    mongo_connect := fun _ _ _ _ => .error "timed out"
    redis_connect := fun _ _ _ _ => .error "timed out" }

/-- A guest world where every SSH/WinRM attempt fails to authenticate. -/
def unreachableGuestEnv : GuestEnv :=
  { linux := fun _ _ => .error "Authentication failed"
    windows := fun _ _ => .error "Authentication failed"
    deep := unreachableDeepEnv }

/-- Query results of a plain MySQL 8 server; the reported version embeds the
connecting username so theorems can observe which credential ran the probe. -/
def mysqlPlainInfo (user : String) : DeepInfo :=
  ⟨"8.0.30-" ++ user, "MySQL Community Server - GPL", ["shop"], 12, 1, 0, 0, 151, 3, ["root"]⟩

/-- A world with one reachable plain MySQL server that accepts every
credential; all other engines are unreachable. -/
def mysqlPlainEnv : DeepEnv :=
  { unreachableDeepEnv with
    mysql_connect := fun _ _ user _ => .ok (mysqlPlainInfo user) }

/-- A world whose MySQL port is actually served by MariaDB, so the probe's
version check reclassifies the engine. -/
def mariaDetectEnv : DeepEnv :=
  { unreachableDeepEnv with
    mysql_connect := fun _ _ user _ => .ok { mysqlPlainInfo user with version := "10.5.8-MariaDB" } }

/-- First MySQL database credential fixture. -/
def credU0 : DatabaseCredential := mkDatabaseCredential "mysql" "u0" "pw0" 0 ""

/-- Second MySQL database credential fixture. -/
def credU1 : DatabaseCredential := mkDatabaseCredential "mysql" "u1" "pw1" 0 ""

/-- A database credential whose engine tag (`oracle`) has no deep-probe
dispatch entry. -/
def credOracle : DatabaseCredential := mkDatabaseCredential "oracle" "scott" "tiger" 0 ""

/-- An OS-inferred MySQL record on port 3306, instance `A`. -/
def dbMysqlA : DiscoveredDatabase :=
  { DiscoveredDatabase.empty with engine := .mysql, port := 3306, instance_name := "A" }

/-- An OS-inferred MySQL record on port 3306, instance `B`. -/
def dbMysqlB : DiscoveredDatabase :=
  { DiscoveredDatabase.empty with engine := .mysql, port := 3306, instance_name := "B" }

/-- A VM that runs both a database and a web app on port 8080. -/
def vmwWebOverDb : VMWorkloads :=
  { VMWorkloads.empty with
    vm_name := "vm1"
    databases := [{ DiscoveredDatabase.empty with engine := .mysql, instance_name := "m1", port := 8080 }]
    web_apps := [{ DiscoveredWebApp.empty with runtime := .nodejs, framework := "express", port := 8080 }] }

/-- A single Linux VM target fixture. -/
def targetLin : VMTarget := ⟨"vm1", "10.0.0.5", "linux"⟩

-- ===========================================================================
-- Basic lemmas about the orchestrator
-- ===========================================================================

/-- The aggregate-counter step never touches the VM record list. -/
theorem tally_step_vm_workloads (r : WorkloadDiscoveryResult) (vmw : VMWorkloads) :
    (tally_step r vmw).vm_workloads = r.vm_workloads := by
  unfold tally_step
  dsimp only
  split <;> [rfl; skip]
  split <;> [rfl; skip]
  split <;> rfl

/-- The aggregate-counter loop never touches the VM record list. -/
theorem foldl_tally_vm_workloads :
    ∀ (ws : List VMWorkloads) (r : WorkloadDiscoveryResult),
      (ws.foldl tally_step r).vm_workloads = r.vm_workloads
  | [], _ => rfl
  | w :: ws, r => by
    rw [List.foldl_cons, foldl_tally_vm_workloads ws, tally_step_vm_workloads]

/-- The VM record list of a run is the per-target scans in completion order. -/
theorem discover_all_vm_workloads (env : GuestEnv) (targets order : List VMTarget)
    (lc wc : List Credential) (dc : List DatabaseCredential) (n : Nat) :
    (discover_all env targets lc wc dc n order).vm_workloads =
      order.map (scanTarget env lc wc dc) := by
  unfold discover_all
  rw [foldl_tally_vm_workloads]

/-- `scan_tail` always publishes the record as complete. -/
theorem scan_tail_status (env : GuestEnv) (vm_name ip : String)
    (dc : List DatabaseCredential) (wl : VMWorkloads) :
    (scan_tail env vm_name ip dc wl).scan_status = "complete" := by
  unfold scan_tail
  dsimp only

/-- `discover_vm` only ever returns one of the three terminal states. -/
theorem discover_vm_status (env : GuestEnv) (vm_name ip os_family : String)
    (lc wc : List Credential) (dc : List DatabaseCredential) :
    (discover_vm env vm_name ip os_family lc wc dc).scan_status = "complete" ∨
      (discover_vm env vm_name ip os_family lc wc dc).scan_status = "error" ∨
        (discover_vm env vm_name ip os_family lc wc dc).scan_status = "skipped" := by
  unfold discover_vm
  dsimp only
  split
  · split
    · exact Or.inr (Or.inr rfl)
    · unfold finish_scan
      rcases cred_loop (env.linux ip) lc none with ⟨_ | p, _ | e⟩
      · exact Or.inl (scan_tail_status ..)
      · exact Or.inr (Or.inl rfl)
      · exact Or.inl (scan_tail_status ..)
      · exact Or.inl (scan_tail_status ..)
  · split
    · split
      · exact Or.inr (Or.inr rfl)
      · unfold finish_scan
        rcases cred_loop (env.windows ip) wc none with ⟨_ | p, _ | e⟩
        · exact Or.inl (scan_tail_status ..)
        · exact Or.inr (Or.inl rfl)
        · exact Or.inl (scan_tail_status ..)
        · exact Or.inl (scan_tail_status ..)
    · exact Or.inr (Or.inr rfl)

-- ===========================================================================
-- C1 — one record per target, terminal statuses only
-- ===========================================================================

/-- C1: for every target list (each entry carrying name, ip and os_family, as
the `VMTarget` structure does) and every completion order the bounded pool can
produce, `discover_all` returns a `vm_workloads` collection holding exactly one
`VMWorkloads` record per supplied target — as a multiset it is precisely one
`discover_vm` record for each target, so no target is missing and none is
duplicated — and every record's `scan_status` is one of `complete`, `error`,
`skipped`. -/
theorem discover_all_one_record_per_target (env : GuestEnv)
    (targets order : List VMTarget) (lc wc : List Credential)
    (dc : List DatabaseCredential) (n : Nat) (h : order.Perm targets) :
    (discover_all env targets lc wc dc n order).vm_workloads.Perm
        (targets.map (scanTarget env lc wc dc)) ∧
      ∀ w ∈ (discover_all env targets lc wc dc n order).vm_workloads,
        w.scan_status = "complete" ∨ w.scan_status = "error" ∨
          w.scan_status = "skipped" := by
  rw [discover_all_vm_workloads]
  refine ⟨h.map _, ?_⟩
  intro w hw
  rcases List.mem_map.mp hw with ⟨t, _, rfl⟩
  exact discover_vm_status env t.name t.ip t.os_family lc wc dc

/-- Witness for C1 at a concrete singleton run in which authentication
fails. -/
theorem discover_all_one_record_per_target_witness :
    ([targetLin].Perm [targetLin]) ∧
      ((discover_all unreachableGuestEnv [targetLin] [] [] [] 5 [targetLin]).vm_workloads.Perm
          ([targetLin].map (scanTarget unreachableGuestEnv [] [] [])) ∧
        ∀ w ∈ (discover_all unreachableGuestEnv [targetLin] [] [] [] 5 [targetLin]).vm_workloads,
          w.scan_status = "complete" ∨ w.scan_status = "error" ∨
            w.scan_status = "skipped") :=
  ⟨List.Perm.refl _,
    discover_all_one_record_per_target unreachableGuestEnv [targetLin] [targetLin]
      [] [] [] 5 (List.Perm.refl _)⟩

-- ===========================================================================
-- C2 — behaviour on the empty target list
-- ===========================================================================

/-- Counterexample to C2 as stated: on the empty target list the run does not
fail — `discover_all` completes normally and returns the empty result (no VM
records, no dependencies, all counters zero). -/
theorem discover_all_empty_targets_returns_result :
    discover_all unreachableGuestEnv [] [] [] [] 5 [] =
      WorkloadDiscoveryResult.empty := by
  rfl

/-- C2 as amended: `discover_all` never fails for any target list.  For every
list (and any completion order) it completes and returns a result with exactly
one record per target regardless of per-VM failures, and for the empty target
list that result is the empty `WorkloadDiscoveryResult`. -/
theorem discover_all_always_returns (env : GuestEnv) (targets order : List VMTarget)
    (lc wc : List Credential) (dc : List DatabaseCredential) (n : Nat)
    (h : order.Perm targets) :
    (discover_all env targets lc wc dc n order).vm_workloads.length = targets.length ∧
      (targets = [] →
        discover_all env targets lc wc dc n order = WorkloadDiscoveryResult.empty) := by
  constructor
  · rw [discover_all_vm_workloads, List.length_map]
    exact h.length_eq
  · rintro rfl
    have horder : order = [] := List.Perm.eq_nil h
    subst horder
    rfl

/-- Witness for C2 (amended) at a concrete one-target run. -/
theorem discover_all_always_returns_witness :
    ([targetLin].Perm [targetLin]) ∧
      ((discover_all unreachableGuestEnv [targetLin] [] [] [] 5 [targetLin]).vm_workloads.length =
          [targetLin].length ∧
        ([targetLin] = ([] : List VMTarget) →
          discover_all unreachableGuestEnv [targetLin] [] [] [] 5 [targetLin] =
            WorkloadDiscoveryResult.empty)) :=
  ⟨List.Perm.refl _,
    discover_all_always_returns unreachableGuestEnv [targetLin] [targetLin] [] [] [] 5
      (List.Perm.refl _)⟩

-- ===========================================================================
-- C3 — ordered credential fallback
-- ===========================================================================

/-- If every credential before `c` fails and `c` succeeds with payload `p`,
the credential loop returns `p` with the last error cleared. -/
theorem cred_loop_success (attempt : Credential → Except String ProbePayload) :
    ∀ (cs₁ : List Credential) (c : Credential) (cs₂ : List Credential)
      (p : ProbePayload) (e0 : Option String),
      (∀ c' ∈ cs₁, ∃ exc, attempt c' = .error exc) → attempt c = .ok p →
      cred_loop attempt (cs₁ ++ c :: cs₂) e0 = (some p, none)
  | [], c, cs₂, p, e0, _, hok => by
    simp only [List.nil_append, cred_loop, hok]
  | c' :: cs₁, c, cs₂, p, e0, hfail, hok => by
    obtain ⟨exc, hexc⟩ := hfail c' (List.mem_cons_self _ _)
    simp only [List.cons_append, cred_loop, hexc]
    exact cred_loop_success attempt cs₁ c cs₂ p (some exc)
      (fun d hd => hfail d (List.mem_cons_of_mem _ hd)) hok

/-- If every credential fails, the loop reports no payload and the error of
the last credential. -/
theorem cred_loop_all_fail (attempt : Credential → Except String ProbePayload) :
    ∀ (cs : List Credential) (c : Credential) (e : String) (e0 : Option String),
      (∀ c' ∈ cs, ∃ exc, attempt c' = .error exc) → attempt c = .error e →
      cred_loop attempt (cs ++ [c]) e0 = (none, some e)
  | [], c, e, e0, _, herr => by
    simp only [List.nil_append, cred_loop, herr]
  | c' :: cs, c, e, e0, hfail, herr => by
    obtain ⟨exc, hexc⟩ := hfail c' (List.mem_cons_self _ _)
    simp only [List.cons_append, cred_loop, hexc]
    exact cred_loop_all_fail attempt cs c e (some exc)
      (fun d hd => hfail d (List.mem_cons_of_mem _ hd)) herr

/-- The record `discover_vm` publishes when the winning credential's probe
suite returned payload `p` and no deep-database credentials were supplied. -/
def completeRecord (vm_name ip os_family : String) (p : ProbePayload) : VMWorkloads :=
  { VMWorkloads.empty with
    vm_name := vm_name
    ip_addresses := [ip]
    os_family := os_family
    scan_status := "complete"
    databases := p.dbs.map (stampDb vm_name)
    web_apps := p.webapps.map (stampWebApp vm_name)
    container_runtimes := p.containers.map (stampContainer vm_name)
    orchestrators := p.orchestrators.map (stampOrch vm_name)
    listening_ports := p.ports
    established_connections := p.conns }

/-- The record `discover_vm` publishes when every credential failed and the
last failure was `e`: empty collections (no partial state) and the error
captured. -/
def errorRecord (vm_name ip os_family : String) (e : String) : VMWorkloads :=
  { VMWorkloads.empty with
    vm_name := vm_name
    ip_addresses := [ip]
    os_family := os_family
    scan_status := "error"
    scan_error := e }

/-- Computation lemma: a Linux scan whose credential loop succeeded with `p`
publishes exactly `p` (with `vm_name` stamped onto the child records). -/
theorem discover_vm_linux_of_loop (env : GuestEnv) (vm_name ip : String)
    (cs : List Credential) (wcs : List Credential) (p : ProbePayload)
    (hne : cs.isEmpty = false)
    (hloop : cred_loop (env.linux ip) cs none = (some p, none)) :
    discover_vm env vm_name ip "linux" cs wcs [] = completeRecord vm_name ip "linux" p := by
  unfold discover_vm
  simp only [reduceIte, hne, Bool.false_eq_true, if_false, hloop]
  rfl

/-- Computation lemma: a Linux scan whose credential loop failed with last
error `e` publishes the error record with no partial state. -/
theorem discover_vm_linux_of_loop_err (env : GuestEnv) (vm_name ip : String)
    (cs : List Credential) (wcs : List Credential) (dcs : List DatabaseCredential)
    (e : String) (hne : cs.isEmpty = false)
    (hloop : cred_loop (env.linux ip) cs none = (none, some e)) :
    discover_vm env vm_name ip "linux" cs wcs dcs = errorRecord vm_name ip "linux" e := by
  unfold discover_vm
  simp only [reduceIte, hne, Bool.false_eq_true, if_false, hloop]
  rfl

/-- Computation lemma: the Windows success analogue. -/
theorem discover_vm_windows_of_loop (env : GuestEnv) (vm_name ip : String)
    (cs : List Credential) (lcs : List Credential) (p : ProbePayload)
    (hne : cs.isEmpty = false)
    (hloop : cred_loop (env.windows ip) cs none = (some p, none)) :
    discover_vm env vm_name ip "windows" lcs cs [] = completeRecord vm_name ip "windows" p := by
  unfold discover_vm
  simp only [reduceIte, hne, Bool.false_eq_true, if_false, hloop]
  rfl

/-- Computation lemma: the Windows failure analogue. -/
theorem discover_vm_windows_of_loop_err (env : GuestEnv) (vm_name ip : String)
    (cs : List Credential) (lcs : List Credential) (dcs : List DatabaseCredential)
    (e : String) (hne : cs.isEmpty = false)
    (hloop : cred_loop (env.windows ip) cs none = (none, some e)) :
    discover_vm env vm_name ip "windows" lcs cs dcs = errorRecord vm_name ip "windows" e := by
  unfold discover_vm
  simp only [reduceIte, hne, Bool.false_eq_true, if_false, hloop]
  rfl

/-- C3: credentials are tried strictly in order.  If credentials 1..k-1 each
fail (connect, auth, or any probe exception — all modelled by the attempt
returning an error) and credential k succeeds with payload `p`, `discover_vm`
returns a complete record whose listening ports, established connections,
databases, web apps, container runtimes and orchestrators are exactly
credential k's probe output (child records carry the stamped `vm_name`), with
no partial state from the failed attempts; if every credential fails, the
status is `error` and `scan_error` holds the last failure while every
collection stays empty.  Both OS families behave alike. -/
theorem discover_vm_credential_fallback (env : GuestEnv) (vm_name ip : String) :
    (∀ (cs₁ cs₂ : List Credential) (ck : Credential) (p : ProbePayload)
        (wcs : List Credential),
      (∀ c ∈ cs₁, ∃ exc, env.linux ip c = .error exc) → env.linux ip ck = .ok p →
      discover_vm env vm_name ip "linux" (cs₁ ++ ck :: cs₂) wcs [] =
        completeRecord vm_name ip "linux" p) ∧
    (∀ (cs₀ : List Credential) (cl : Credential) (e : String)
        (wcs : List Credential) (dcs : List DatabaseCredential),
      (∀ c ∈ cs₀, ∃ exc, env.linux ip c = .error exc) → env.linux ip cl = .error e →
      discover_vm env vm_name ip "linux" (cs₀ ++ [cl]) wcs dcs =
        errorRecord vm_name ip "linux" e) ∧
    (∀ (cs₁ cs₂ : List Credential) (ck : Credential) (p : ProbePayload)
        (lcs : List Credential),
      (∀ c ∈ cs₁, ∃ exc, env.windows ip c = .error exc) → env.windows ip ck = .ok p →
      discover_vm env vm_name ip "windows" lcs (cs₁ ++ ck :: cs₂) [] =
        completeRecord vm_name ip "windows" p) ∧
    (∀ (cs₀ : List Credential) (cl : Credential) (e : String)
        (lcs : List Credential) (dcs : List DatabaseCredential),
      (∀ c ∈ cs₀, ∃ exc, env.windows ip c = .error exc) → env.windows ip cl = .error e →
      discover_vm env vm_name ip "windows" lcs (cs₀ ++ [cl]) dcs =
        errorRecord vm_name ip "windows" e) := by
  refine ⟨?_, ?_, ?_, ?_⟩
  · intro cs₁ cs₂ ck p wcs hfail hok
    have hne : (cs₁ ++ ck :: cs₂).isEmpty = false := by cases cs₁ <;> rfl
    exact discover_vm_linux_of_loop env vm_name ip _ wcs p hne
      (cred_loop_success (env.linux ip) cs₁ ck cs₂ p none hfail hok)
  · intro cs₀ cl e wcs dcs hfail herr
    have hne : (cs₀ ++ [cl]).isEmpty = false := by cases cs₀ <;> rfl
    exact discover_vm_linux_of_loop_err env vm_name ip _ wcs dcs e hne
      (cred_loop_all_fail (env.linux ip) cs₀ cl e none hfail herr)
  · intro cs₁ cs₂ ck p lcs hfail hok
    have hne : (cs₁ ++ ck :: cs₂).isEmpty = false := by cases cs₁ <;> rfl
    exact discover_vm_windows_of_loop env vm_name ip _ lcs p hne
      (cred_loop_success (env.windows ip) cs₁ ck cs₂ p none hfail hok)
  · intro cs₀ cl e lcs dcs hfail herr
    have hne : (cs₀ ++ [cl]).isEmpty = false := by cases cs₀ <;> rfl
    exact discover_vm_windows_of_loop_err env vm_name ip _ lcs dcs e hne
      (cred_loop_all_fail (env.windows ip) cs₀ cl e none hfail herr)

/-- A payload a successful probe suite might return: one ssh listening port. -/
def payloadSsh : ProbePayload :=
  ⟨[⟨22, "tcp", "sshd", 812, "0.0.0.0"⟩], [], [], [], [], []⟩

/-- A transport world where only the username `good` authenticates, on either
protocol, and succeeds with `payloadSsh`. -/
def fallbackGuestEnv : GuestEnv :=
  { linux := fun _ c =>
      if c.username = "good" then .ok payloadSsh
      else .error ("auth failed for " ++ c.username)
    windows := fun _ c =>
      if c.username = "good" then .ok payloadSsh
      else .error ("auth failed for " ++ c.username)
    deep := unreachableDeepEnv }

/-- The credential that authenticates in `fallbackGuestEnv`. -/
def credGood : Credential := ⟨"good", "pw", 0, "", true⟩

/-- A credential rejected by `fallbackGuestEnv`. -/
def credBad : Credential := ⟨"bad", "pw", 0, "", true⟩

/-- Witness for C3: a wrong credential followed by a valid one yields a
complete record with exactly the valid credential's payload, and a lone wrong
credential yields the error record, on both OS families. -/
theorem discover_vm_credential_fallback_witness :
    discover_vm fallbackGuestEnv "vm1" "10.0.0.5" "linux" [credBad, credGood] [] [] =
        completeRecord "vm1" "10.0.0.5" "linux" payloadSsh ∧
      discover_vm fallbackGuestEnv "vm1" "10.0.0.5" "linux" [credBad] [] [] =
          errorRecord "vm1" "10.0.0.5" "linux" "auth failed for bad" ∧
        discover_vm fallbackGuestEnv "vm1" "10.0.0.5" "windows" [] [credBad, credGood] [] =
            completeRecord "vm1" "10.0.0.5" "windows" payloadSsh ∧
          discover_vm fallbackGuestEnv "vm1" "10.0.0.5" "windows" [] [credBad] [] =
              errorRecord "vm1" "10.0.0.5" "windows" "auth failed for bad" := by
  obtain ⟨h1, h2, h3, h4⟩ := discover_vm_credential_fallback fallbackGuestEnv "vm1" "10.0.0.5"
  refine ⟨?_, ?_, ?_, ?_⟩
  · exact h1 [credBad] [] credGood payloadSsh []
      (by intro c hc; rw [List.mem_singleton] at hc; subst hc; exact ⟨_, rfl⟩) rfl
  · exact h2 [] credBad "auth failed for bad" [] [] (by intro c hc; cases hc) rfl
  · exact h3 [credBad] [] credGood payloadSsh []
      (by intro c hc; rw [List.mem_singleton] at hc; subst hc; exact ⟨_, rfl⟩) rfl
  · exact h4 [] credBad "auth failed for bad" [] [] (by intro c hc; cases hc) rfl

-- ===========================================================================
-- Dictionary lemmas
-- ===========================================================================

/-- Lookup after a dict write: the written key reads the new value, all other
keys are untouched. -/
theorem dictGet_insert {K V : Type} [DecidableEq K] (m : List (K × V)) (k : K)
    (v : V) (q : K) :
    dictGet (dictInsert m k v) q = if k = q then some v else dictGet m q := by
  induction m with
  | nil => rfl
  | cons hd tl ih =>
    obtain ⟨k', v'⟩ := hd
    by_cases hk : k' = k
    · subst hk
      simp only [dictInsert, if_pos rfl, dictGet]
      by_cases hq : k' = q <;> simp [hq]
    · simp only [dictInsert, if_neg hk, dictGet, ih]
      by_cases hq : k' = q <;> by_cases hkq : k = q <;> simp [hq, hkq]
      exact absurd (hq.trans hkq.symm) hk

/-- The last element of a list satisfying a predicate. -/
def lastMatch {α : Type} (pred : α → Bool) : List α → Option α
  | [] => none
  | x :: xs =>
    match lastMatch pred xs with
    | some y => some y
    | none => if pred x then some x else none

/-- Lookup through the unconditional database-label fold of
`port_map_step`: the last database written at port `p` wins; ports nobody
wrote fall through to the underlying dict. -/
theorem dbFold_get (name : String) (p : Nat) :
    ∀ (dbs : List DiscoveredDatabase) (m : List ((String × Nat) × String)),
      dictGet (dbs.foldl (fun m db => dictInsert m (name, db.port) (dbLabel db)) m) (name, p) =
        match lastMatch (fun db => decide (db.port = p)) dbs with
        | some db => some (dbLabel db)
        | none => dictGet m (name, p)
  | [], m => rfl
  | db :: dbs, m => by
    rw [List.foldl_cons, dbFold_get name p dbs]
    cases h : lastMatch (fun db => decide (db.port = p)) dbs with
    | some y => simp only [lastMatch, h]
    | none =>
      simp only [lastMatch, h, dictGet_insert, Prod.mk.injEq, true_and]
      by_cases hp : db.port = p <;> simp [hp]

/-- Lookup through the web-app fold of `port_map_step` (writes only web apps
with a truthy port): for a nonzero port `p`, the last web app at `p` wins. -/
theorem waFold_get (name : String) (p : Nat) (hp : p ≠ 0) :
    ∀ (was : List DiscoveredWebApp) (m : List ((String × Nat) × String)),
      dictGet (was.foldl
          (fun m wa => if wa.port ≠ 0 then dictInsert m (name, wa.port) (webLabel wa) else m)
          m) (name, p) =
        match lastMatch (fun wa => decide (wa.port = p)) was with
        | some wa => some (webLabel wa)
        | none => dictGet m (name, p)
  | [], m => rfl
  | wa :: was, m => by
    rw [List.foldl_cons]
    by_cases h0 : wa.port = 0
    · have hg : ¬wa.port ≠ 0 := by simp [h0]
      rw [if_neg hg, waFold_get name p hp was]
      cases h : lastMatch (fun wa => decide (wa.port = p)) was with
      | some y => simp only [lastMatch, h]
      | none =>
        have hne : wa.port ≠ p := by
          rw [h0]
          exact fun hc => hp hc.symm
        simp [lastMatch, h, hne]
    · rw [if_pos h0, waFold_get name p hp was]
      cases h : lastMatch (fun wa => decide (wa.port = p)) was with
      | some y => simp only [lastMatch, h]
      | none =>
        simp only [lastMatch, h, dictGet_insert, Prod.mk.injEq, true_and]
        by_cases hq : wa.port = p <;> simp [hq]

/-- Lookup through the listening-port fold of `port_map_step` (writes only
when the key is absent): an existing binding always survives, and an absent
key is filled by the first listening port at `p`. -/
theorem lpFold_get (name : String) (p : Nat) :
    ∀ (lps : List ListeningPort) (m : List ((String × Nat) × String)),
      dictGet (lps.foldl
          (fun m lp =>
            if (dictGet m (name, lp.port)).isSome then m
            else dictInsert m (name, lp.port) (portLabel lp))
          m) (name, p) =
        match dictGet m (name, p) with
        | some v => some v
        | none =>
          match lps.find? (fun lp => decide (lp.port = p)) with
          | some lp => some (portLabel lp)
          | none => none
  | [], m => by cases h : dictGet m (name, p) <;> simp [h]
  | lp :: lps, m => by
    rw [List.foldl_cons]
    by_cases habs : (dictGet m (name, lp.port)).isSome
    · rw [if_pos habs, lpFold_get name p lps]
      cases h : dictGet m (name, p) with
      | some v => rfl
      | none =>
        have hne : lp.port ≠ p := by
          intro hc
          rw [hc, h] at habs
          exact Bool.false_ne_true habs
        rw [List.find?_cons_of_neg _ (by simpa using hne)]
    · rw [if_neg habs, lpFold_get name p lps]
      by_cases hq : lp.port = p
      · subst hq
        have h : dictGet m (name, lp.port) = none := by
          cases h' : dictGet m (name, lp.port)
          · rfl
          · rw [h'] at habs
            exact absurd rfl habs
        rw [dictGet_insert]
        rw [if_pos rfl, h]
        rw [List.find?_cons_of_pos _ (by simp)]
      · rw [dictGet_insert, if_neg (by simp [hq])]
        cases h : dictGet m (name, p) with
        | some v => rfl
        | none => rw [List.find?_cons_of_neg _ (by simpa using hq)]

-- ===========================================================================
-- C4 — label priority in the (VM, port) → workload index
-- ===========================================================================

/-- Counterexample to C4 as stated: `vmwWebOverDb` binds both a database
(label `mysql:m1`) and a web app (label `nodejs:express`) to port 8080, and
the index maps (vm1, 8080) to the web app's label, not the database's — the
web-app write overwrites the database write, so the database does not have the
highest priority. -/
theorem port_index_db_loses_to_webapp :
    vmwWebOverDb.databases.map dbLabel = ["mysql:m1"] ∧
      vmwWebOverDb.databases.map (fun db => db.port) = [8080] ∧
        dictGet (port_to_workload [vmwWebOverDb]) ("vm1", 8080) = some "nodejs:express" ∧
          ("nodejs:express" : String) ≠ "mysql:m1" := by
  refine ⟨rfl, rfl, rfl, by decide⟩

/-- C4 as amended: in the (VM, port) → workload-label index the writes run
databases first, web apps second (overwriting), then raw listening ports only
into absent keys.  Hence for every VM and nonzero port: a web app bound to the
port wins over any database or raw listening-port label (the last such web app
in list order); with no web app at the port, a database bound to it wins over
the raw listening-port label (the last such database); the raw listening-port
label (the first such port) appears only when neither claimed the port and the
key was absent. -/
theorem port_index_priority (m : List ((String × Nat) × String)) (vmw : VMWorkloads)
    (p : Nat) (hp : p ≠ 0) :
    (∀ wa, lastMatch (fun wa => decide (wa.port = p)) vmw.web_apps = some wa →
      dictGet (port_map_step m vmw) (vmw.vm_name, p) = some (webLabel wa)) ∧
      ((lastMatch (fun wa => decide (wa.port = p)) vmw.web_apps = none →
        ∀ db, lastMatch (fun db => decide (db.port = p)) vmw.databases = some db →
          dictGet (port_map_step m vmw) (vmw.vm_name, p) = some (dbLabel db)) ∧
        (lastMatch (fun wa => decide (wa.port = p)) vmw.web_apps = none →
          lastMatch (fun db => decide (db.port = p)) vmw.databases = none →
          dictGet m (vmw.vm_name, p) = none →
          ∀ lp, vmw.listening_ports.find? (fun lp => decide (lp.port = p)) = some lp →
            dictGet (port_map_step m vmw) (vmw.vm_name, p) = some (portLabel lp))) := by
  refine ⟨?_, ?_, ?_⟩
  · intro wa hwa
    unfold port_map_step
    rw [lpFold_get vmw.vm_name p, waFold_get vmw.vm_name p hp, hwa]
  · intro hwa db hdb
    unfold port_map_step
    rw [lpFold_get vmw.vm_name p, waFold_get vmw.vm_name p hp, hwa, dbFold_get vmw.vm_name p, hdb]
  · intro hwa hdb hm lp hlp
    unfold port_map_step
    rw [lpFold_get vmw.vm_name p, waFold_get vmw.vm_name p hp, hwa,
      dbFold_get vmw.vm_name p, hdb, hm, hlp]

/-- Witness for C4 (amended) at the concrete VM that binds a database and a
web app to port 8080. -/
theorem port_index_priority_witness :
    (8080 ≠ 0) ∧
      ((∀ wa, lastMatch (fun wa => decide (wa.port = 8080)) vmwWebOverDb.web_apps = some wa →
        dictGet (port_map_step [] vmwWebOverDb) (vmwWebOverDb.vm_name, 8080) =
          some (webLabel wa)) ∧
        ((lastMatch (fun wa => decide (wa.port = 8080)) vmwWebOverDb.web_apps = none →
          ∀ db, lastMatch (fun db => decide (db.port = 8080)) vmwWebOverDb.databases = some db →
            dictGet (port_map_step [] vmwWebOverDb) (vmwWebOverDb.vm_name, 8080) =
              some (dbLabel db)) ∧
          (lastMatch (fun wa => decide (wa.port = 8080)) vmwWebOverDb.web_apps = none →
            lastMatch (fun db => decide (db.port = 8080)) vmwWebOverDb.databases = none →
            dictGet ([] : List ((String × Nat) × String)) (vmwWebOverDb.vm_name, 8080) = none →
            ∀ lp, vmwWebOverDb.listening_ports.find? (fun lp => decide (lp.port = 8080)) = some lp →
              dictGet (port_map_step [] vmwWebOverDb) (vmwWebOverDb.vm_name, 8080) =
                some (portLabel lp)))) :=
  ⟨by decide, port_index_priority [] vmwWebOverDb 8080 (by decide)⟩

-- ===========================================================================
-- Deduplication lemmas
-- ===========================================================================

/-- Every deduplicated edge comes from the candidate stream. -/
theorem mem_of_mem_dedup :
    ∀ (seen : List (String × String × Nat)) (l : List WorkloadDependency)
      (d : WorkloadDependency), d ∈ dedup_deps seen l → d ∈ l
  | seen, c :: rest, d, hd => by
    by_cases hc : depKey c ∈ seen
    · rw [dedup_deps, if_pos hc] at hd
      exact List.mem_cons_of_mem _ (mem_of_mem_dedup seen rest d hd)
    · rw [dedup_deps, if_neg hc] at hd
      rcases List.mem_cons.mp hd with rfl | hd
      · exact List.mem_cons_self _ _
      · exact List.mem_cons_of_mem _ (mem_of_mem_dedup _ rest d hd)

/-- A surviving edge's key was not in the `seen` set the loop started from. -/
theorem dedup_not_seen :
    ∀ (seen : List (String × String × Nat)) (l : List WorkloadDependency)
      (d : WorkloadDependency), d ∈ dedup_deps seen l → depKey d ∉ seen
  | seen, c :: rest, d, hd => by
    by_cases hc : depKey c ∈ seen
    · rw [dedup_deps, if_pos hc] at hd
      exact dedup_not_seen seen rest d hd
    · rw [dedup_deps, if_neg hc] at hd
      rcases List.mem_cons.mp hd with rfl | hd
      · exact hc
      · intro hmem
        exact dedup_not_seen _ rest d hd (List.mem_cons_of_mem _ hmem)

/-- The deduplicated stream has pairwise-distinct keys. -/
theorem dedup_keys_nodup :
    ∀ (seen : List (String × String × Nat)) (l : List WorkloadDependency),
      ((dedup_deps seen l).map depKey).Nodup
  | _, [] => List.nodup_nil
  | seen, c :: rest => by
    by_cases hc : depKey c ∈ seen
    · rw [dedup_deps, if_pos hc]
      exact dedup_keys_nodup seen rest
    · rw [dedup_deps, if_neg hc, List.map_cons, List.nodup_cons]
      refine ⟨?_, dedup_keys_nodup _ rest⟩
      intro hmem
      rcases List.mem_map.mp hmem with ⟨d, hd, hkey⟩
      exact dedup_not_seen _ rest d hd (hkey ▸ List.mem_cons_self _ _)

/-- Each surviving edge is the first candidate carrying its key. -/
theorem dedup_find_first :
    ∀ (seen : List (String × String × Nat)) (l : List WorkloadDependency)
      (d : WorkloadDependency), d ∈ dedup_deps seen l →
      l.find? (fun c => decide (depKey c = depKey d)) = some d
  | seen, c :: rest, d, hd => by
    by_cases hc : depKey c ∈ seen
    · rw [dedup_deps, if_pos hc] at hd
      have hne : depKey c ≠ depKey d := by
        intro he
        exact dedup_not_seen seen rest d hd (he ▸ hc)
      rw [List.find?_cons_of_neg _ (by simpa using hne)]
      exact dedup_find_first seen rest d hd
    · rw [dedup_deps, if_neg hc] at hd
      rcases List.mem_cons.mp hd with rfl | hd
      · rw [List.find?_cons_of_pos _ (by simp)]
      · have hne : depKey c ≠ depKey d := by
          intro he
          exact dedup_not_seen _ rest d hd (he ▸ List.mem_cons_self _ _)
        rw [List.find?_cons_of_neg _ (by simpa using hne)]
        exact dedup_find_first _ rest d hd

/-- Every candidate whose key the loop has not yet seen is represented by
some surviving edge with the same key. -/
theorem dedup_covers :
    ∀ (seen : List (String × String × Nat)) (l : List WorkloadDependency)
      (c : WorkloadDependency), c ∈ l → depKey c ∉ seen →
      ∃ d ∈ dedup_deps seen l, depKey d = depKey c
  | seen, x :: rest, c, hc, hns => by
    by_cases hx : depKey x ∈ seen
    · rw [dedup_deps, if_pos hx]
      rcases List.mem_cons.mp hc with rfl | hc
      · exact absurd hx hns
      · exact dedup_covers seen rest c hc hns
    · rw [dedup_deps, if_neg hx]
      rcases List.mem_cons.mp hc with rfl | hc
      · exact ⟨c, List.mem_cons_self _ _, rfl⟩
      · by_cases hkey : depKey c = depKey x
        · exact ⟨x, List.mem_cons_self _ _, hkey.symm⟩
        · obtain ⟨d, hd, hdk⟩ := dedup_covers (depKey x :: seen) rest c hc
            (by
              intro hmem
              rcases List.mem_cons.mp hmem with he | hmem
              · exact hkey he
              · exact hns hmem)
          exact ⟨d, List.mem_cons_of_mem _ hd, hdk⟩

-- ===========================================================================
-- C5 — at most one edge per (source VM, target VM, target port)
-- ===========================================================================

/-- C5: the dependency list holds at most one edge per
(source VM, target VM, target port) triple — its keys are pairwise distinct —
each emitted edge is derived from the first connection in input order mapping
to its triple, and every candidate triple is represented by exactly one
emitted edge. -/
theorem build_dependencies_dedup_first_wins (ws : List VMWorkloads) :
    ((build_dependencies ws).map depKey).Nodup ∧
      (∀ d ∈ build_dependencies ws,
        (dep_candidates ws).find? (fun c => decide (depKey c = depKey d)) = some d) ∧
        ∀ c ∈ dep_candidates ws,
          ∃ d ∈ build_dependencies ws, depKey d = depKey c := by
  refine ⟨dedup_keys_nodup [] _, ?_, ?_⟩
  · intro d hd
    exact dedup_find_first [] _ d hd
  · intro c hc
    exact dedup_covers [] _ c hc (by simp)

/-- An application VM holding two established connections to the same
database endpoint. -/
def vmAppDup : VMWorkloads :=
  { VMWorkloads.empty with
    vm_name := "app"
    ip_addresses := ["10.0.0.6"]
    established_connections :=
      [⟨41000, "10.0.0.5", 5432, "python", 10⟩, ⟨41001, "10.0.0.5", 5432, "python", 10⟩] }

/-- The database VM those connections point at. -/
def vmDbTarget : VMWorkloads :=
  { VMWorkloads.empty with
    vm_name := "db"
    ip_addresses := ["10.0.0.5"]
    databases := [{ DiscoveredDatabase.empty with
      engine := .postgresql, instance_name := "main", port := 5432 }] }

/-- A result set with two duplicate connections from `app` to `db:5432`. -/
def wsDup : List VMWorkloads := [vmAppDup, vmDbTarget]

/-- Witness for C5: on `wsDup` the two duplicate connections yield exactly one
edge, and the theorem's guarantees hold there. -/
theorem build_dependencies_dedup_first_wins_witness :
    (dep_candidates wsDup).length = 2 ∧
      (build_dependencies wsDup).length = 1 ∧
        (((build_dependencies wsDup).map depKey).Nodup ∧
          (∀ d ∈ build_dependencies wsDup,
            (dep_candidates wsDup).find? (fun c => decide (depKey c = depKey d)) = some d) ∧
            ∀ c ∈ dep_candidates wsDup,
              ∃ d ∈ build_dependencies wsDup, depKey d = depKey c) :=
  ⟨by decide, by decide, build_dependencies_dedup_first_wins wsDup⟩

-- ===========================================================================
-- C6 — no self edges, unresolved addresses produce nothing
-- ===========================================================================

/-- An address outside a fold's written keys reads through it unchanged. -/
theorem dictGet_ip_fold_none :
    ∀ (ips : List String) (name ip : String) (m : List (String × String)),
      ip ∉ ips →
      dictGet (ips.foldl (fun m i => dictInsert m i name) m) ip = dictGet m ip
  | [], _, _, _, _ => rfl
  | i :: ips, name, ip, m, h => by
    rw [List.foldl_cons,
      dictGet_ip_fold_none ips name ip _ (fun hm => h (List.mem_cons_of_mem _ hm)),
      dictGet_insert,
      if_neg (fun he => h (by rw [← he]; exact List.mem_cons_self _ _))]

/-- An address on no scanned VM's list resolves to nothing. -/
theorem ip_to_vm_lookup_none (ws : List VMWorkloads) (ip : String)
    (h : ∀ w ∈ ws, ip ∉ w.ip_addresses) : dictGet (ip_to_vm ws) ip = none := by
  suffices h' : ∀ (ws' : List VMWorkloads) (m : List (String × String)),
      (∀ w ∈ ws', ip ∉ w.ip_addresses) →
      dictGet (ws'.foldl
        (fun m vmw => vmw.ip_addresses.foldl (fun m i => dictInsert m i vmw.vm_name) m) m) ip =
        dictGet m ip by
    exact h' ws [] h
  intro ws'
  induction ws' with
  | nil => intro m _; rfl
  | cons w rest ih =>
    intro m hmem
    rw [List.foldl_cons, ih _ (fun w' hw' => hmem w' (List.mem_cons_of_mem _ hw')),
      dictGet_ip_fold_none _ _ _ _ (hmem w (List.mem_cons_self _ _))]

/-- Inversion of a produced candidate edge: it keeps its source VM, its target
differs from the source, and its target resolved through the address index. -/
theorem depCandidate_inv (ipMap : List (String × String))
    (p2w : List ((String × Nat) × String)) (src : String)
    (conn : EstablishedConnection) (d : WorkloadDependency)
    (h : depCandidate ipMap p2w src conn = some d) :
    d.source_vm = src ∧ d.target_vm ≠ src ∧
      dictGet ipMap conn.remote_ip = some d.target_vm := by
  unfold depCandidate at h
  cases hip : dictGet ipMap conn.remote_ip with
  | none => rw [hip] at h; cases h
  | some tvm =>
    rw [hip] at h
    dsimp only at h
    by_cases h1 : tvm = ""
    · rw [if_pos h1] at h; cases h
    · rw [if_neg h1] at h
      by_cases h2 : tvm = src
      · rw [if_pos h2] at h; cases h
      · rw [if_neg h2] at h
        injection h with h
        subst h
        exact ⟨rfl, h2, rfl⟩

/-- C6: `_build_dependencies` emits no edge whose source VM equals its target
VM; and an established connection whose remote address belongs to no scanned
VM's address list produces no edge at all — deleting that connection from its
VM's record leaves the dependency list unchanged. -/
theorem build_dependencies_no_self_no_external :
    (∀ (ws : List VMWorkloads), ∀ d ∈ build_dependencies ws,
      d.source_vm ≠ d.target_vm) ∧
      ∀ (pre post : List VMWorkloads) (vmw : VMWorkloads)
        (cs₁ cs₂ : List EstablishedConnection) (c : EstablishedConnection),
        (∀ w ∈ pre ++ ({vmw with established_connections := cs₁ ++ c :: cs₂} :: post),
          c.remote_ip ∉ w.ip_addresses) →
        build_dependencies
            (pre ++ ({vmw with established_connections := cs₁ ++ c :: cs₂} :: post)) =
          build_dependencies
            (pre ++ ({vmw with established_connections := cs₁ ++ cs₂} :: post)) := by
  constructor
  · intro ws d hd
    have hc := mem_of_mem_dedup [] _ d hd
    rcases List.mem_filterMap.mp hc with ⟨pc, _, hpc⟩
    obtain ⟨hsrc, hne, _⟩ := depCandidate_inv _ _ _ _ _ hpc
    intro he
    exact hne (by rw [← he, hsrc])
  · intro pre post vmw cs₁ cs₂ c h
    have hip : dictGet
        (ip_to_vm (pre ++ ({vmw with established_connections := cs₁ ++ c :: cs₂} :: post)))
        c.remote_ip = none :=
      ip_to_vm_lookup_none _ _ h
    have hipmap :
        ip_to_vm (pre ++ ({vmw with established_connections := cs₁ ++ c :: cs₂} :: post)) =
          ip_to_vm (pre ++ ({vmw with established_connections := cs₁ ++ cs₂} :: post)) := by
      unfold ip_to_vm
      rw [List.foldl_append, List.foldl_append, List.foldl_cons, List.foldl_cons]
    have hp2w :
        port_to_workload (pre ++ ({vmw with established_connections := cs₁ ++ c :: cs₂} :: post)) =
          port_to_workload (pre ++ ({vmw with established_connections := cs₁ ++ cs₂} :: post)) := by
      unfold port_to_workload
      rw [List.foldl_append, List.foldl_append, List.foldl_cons, List.foldl_cons]
      rfl
    unfold build_dependencies
    congr 1
    unfold dep_candidates
    rw [hipmap, hp2w]
    unfold connPairs
    rw [List.map_append, List.map_append, List.map_cons, List.map_cons,
      List.flatten_append, List.flatten_append, List.flatten_cons, List.flatten_cons]
    rw [List.filterMap_append, List.filterMap_append, List.filterMap_append,
      List.filterMap_append]
    congr 1
    congr 1
    show List.filterMap _ ((cs₁ ++ c :: cs₂).map _) = List.filterMap _ ((cs₁ ++ cs₂).map _)
    rw [List.map_append, List.map_append, List.map_cons,
      List.filterMap_append, List.filterMap_append]
    congr 1
    rw [List.filterMap_cons_none]
    show depCandidate _ _ vmw.vm_name c = none
    rw [← hipmap] at *
    unfold depCandidate
    rw [hip]

/-- A connection to an address outside the scanned set. -/
def connExternal : EstablishedConnection := ⟨500, "192.168.9.9", 80, "curl", 7⟩

/-- Witness for C6: deleting a connection to the unscanned address
192.168.9.9 from `vmAppDup`'s record leaves the dependency list unchanged. -/
theorem build_dependencies_no_self_no_external_witness :
    (∀ w ∈ ([] : List VMWorkloads) ++
        ({vmAppDup with established_connections := [] ++ connExternal :: []} :: [vmDbTarget]),
      connExternal.remote_ip ∉ w.ip_addresses) ∧
      build_dependencies
          (([] : List VMWorkloads) ++
            ({vmAppDup with established_connections := [] ++ connExternal :: []} :: [vmDbTarget])) =
        build_dependencies
          (([] : List VMWorkloads) ++
            ({vmAppDup with established_connections := [] ++ []} :: [vmDbTarget])) :=
  ⟨by decide,
    build_dependencies_no_self_no_external.2 [] [vmDbTarget] vmAppDup [] [] connExternal
      (by decide)⟩

-- ===========================================================================
-- C7 — pass-1 credential selection
-- ===========================================================================

/-- The record one pass-1 iteration leaves for a database: enriched in place
by the selected credential's probe when the engine has a dispatch entry,
untouched otherwise. -/
def pass1_enrich (env : DeepEnv) (host : String)
    (indexed : List (Nat × DatabaseCredential)) (db : DiscoveredDatabase) :
    DiscoveredDatabase :=
  match pass1_find db indexed with
  | some (_, cred) =>
    match deepProbeMapGet db.engine.value with
    | some f => f env host cred (some db)
    | none => db
  | none => db

/-- The credential index one pass-1 iteration consumes for a database. -/
def pass1_pick (indexed : List (Nat × DatabaseCredential)) (db : DiscoveredDatabase) :
    Option Nat :=
  match pass1_find db indexed with
  | some (ci, _) =>
    match deepProbeMapGet db.engine.value with
    | some _ => some ci
    | none => none
  | none => none

/-- For a database whose engine has no dispatch entry the pass-1 credential
loop selects nothing: the `break` never fires. -/
theorem pass1_find_none (db : DiscoveredDatabase)
    (h : deepProbeMapGet db.engine.value = none) :
    ∀ l : List (Nat × DatabaseCredential), pass1_find db l = none
  | [] => rfl
  | (ci, cred) :: rest => by
    unfold pass1_find
    rw [h]
    split <;> exact pass1_find_none db h rest

/-- For a database whose engine has a dispatch entry, pass 1 selects the first
credential in list order satisfying the match condition — consumed or not. -/
theorem pass1_find_eq_find (db : DiscoveredDatabase) (f : DeepProbeFn)
    (h : deepProbeMapGet db.engine.value = some f) :
    ∀ l : List (Nat × DatabaseCredential),
      pass1_find db l = l.find? (fun ic => credMatchesDb ic.2 db.engine.value db)
  | [] => rfl
  | (ci, cred) :: rest => by
    unfold pass1_find
    by_cases hm : credMatchesDb cred db.engine.value db
    · rw [if_pos hm, h, List.find?_cons_of_pos _ (by exact hm)]
    · rw [if_neg hm, List.find?_cons_of_neg _ (by exact hm),
        pass1_find_eq_find db f h rest]

/-- Pass 1 in closed form: the results are the input records each transformed
independently by `pass1_enrich` (in input order), and the consumed set is the
per-record picks. -/
theorem deep_probe_pass1_eq (env : DeepEnv) (host : String)
    (indexed : List (Nat × DatabaseCredential)) :
    ∀ (dbs : List DiscoveredDatabase) (acc : List DiscoveredDatabase × List Nat),
      dbs.foldl (pass1_step env host indexed) acc =
        (acc.1 ++ dbs.map (pass1_enrich env host indexed),
          acc.2 ++ dbs.filterMap (pass1_pick indexed))
  | [], acc => by simp
  | db :: dbs, acc => by
    rw [List.foldl_cons]
    cases hfind : pass1_find db indexed with
    | none =>
      rw [show pass1_step env host indexed acc db = (acc.1 ++ [db], acc.2) by
          unfold pass1_step; rw [hfind]]
      rw [deep_probe_pass1_eq env host indexed dbs]
      simp [pass1_enrich, pass1_pick, hfind]
    | some icred =>
      obtain ⟨ci, cred⟩ := icred
      cases hmap : deepProbeMapGet db.engine.value with
      | none =>
        rw [show pass1_step env host indexed acc db = (acc.1 ++ [db], acc.2) by
            unfold pass1_step; rw [hfind, hmap]]
        rw [deep_probe_pass1_eq env host indexed dbs]
        simp [pass1_enrich, pass1_pick, hfind, hmap]
      | some f =>
        rw [show pass1_step env host indexed acc db =
            (acc.1 ++ [f env host cred (some db)], acc.2 ++ [ci]) by
            unfold pass1_step; rw [hfind, hmap]]
        rw [deep_probe_pass1_eq env host indexed dbs]
        simp [pass1_enrich, pass1_pick, hfind, hmap]

/-- C7 as amended: in pass 1, for each existing database whose engine has a
registered probe function, the selected credential is the first credential in
list order — whether or not an earlier database already used it — whose engine
tag matches the database's engine or is `auto`, or whose (nonzero) port equals
the database's port; on selection the probe connects with that credential
(the database's slot holds that probe's output) and the credential's index is
consumed, so pass 2 skips it.  A database whose engine has no registered probe
is passed through untouched and consumes nothing. -/
theorem deep_probe_pass1_first_match (env : DeepEnv) (host : String)
    (creds : List DatabaseCredential) (dbs : List DiscoveredDatabase) :
    (∀ (i : Nat) (db : DiscoveredDatabase), dbs[i]? = some db →
      deepProbeMapGet db.engine.value = none →
      (deep_probe_pass1 env host creds.enum dbs).1[i]? = some db) ∧
      (∀ (i : Nat) (db : DiscoveredDatabase) (f : DeepProbeFn), dbs[i]? = some db →
        deepProbeMapGet db.engine.value = some f →
        creds.enum.find? (fun ic => credMatchesDb ic.2 db.engine.value db) = none →
        (deep_probe_pass1 env host creds.enum dbs).1[i]? = some db) ∧
        (∀ (i : Nat) (db : DiscoveredDatabase) (f : DeepProbeFn) (ci : Nat)
            (cred : DatabaseCredential), dbs[i]? = some db →
          deepProbeMapGet db.engine.value = some f →
          creds.enum.find? (fun ic => credMatchesDb ic.2 db.engine.value db) =
            some (ci, cred) →
          (deep_probe_pass1 env host creds.enum dbs).1[i]? =
              some (f env host cred (some db)) ∧
            ci ∈ (deep_probe_pass1 env host creds.enum dbs).2) ∧
          ∀ (acc : List (String × Nat) × List DiscoveredDatabase) (ci : Nat)
              (cred : DatabaseCredential),
            ci ∈ (deep_probe_pass1 env host creds.enum dbs).2 →
            pass2_step env host (deep_probe_pass1 env host creds.enum dbs).2 acc
                (ci, cred) = acc := by
  have hp1 : deep_probe_pass1 env host creds.enum dbs =
      (dbs.map (pass1_enrich env host creds.enum),
        dbs.filterMap (pass1_pick creds.enum)) := by
    unfold deep_probe_pass1
    rw [deep_probe_pass1_eq]
    simp
  refine ⟨?_, ?_, ?_, ?_⟩
  · intro i db hi hmap
    rw [hp1]
    dsimp only
    rw [List.getElem?_map, hi]
    simp [pass1_enrich, pass1_find_none db hmap]
  · intro i db f hi hmap hfind
    rw [hp1]
    dsimp only
    rw [List.getElem?_map, hi]
    simp [pass1_enrich, pass1_find_eq_find db f hmap, hfind, hmap]
  · intro i db f ci cred hi hmap hfind
    constructor
    · rw [hp1]
      dsimp only
      rw [List.getElem?_map, hi]
      simp [pass1_enrich, pass1_find_eq_find db f hmap, hfind, hmap]
    · rw [hp1]
      dsimp only
      refine List.mem_filterMap.mpr ⟨db, List.getElem?_mem hi, ?_⟩
      simp [pass1_pick, pass1_find_eq_find db f hmap, hfind, hmap]
  · intro acc ci cred hci
    unfold pass2_step
    rw [if_pos hci]

/-- Counterexample to C7 as stated: two OS-inferred MySQL databases and two
MySQL credentials.  Per the claim, the second database should be enriched by
the first *unused* credential (`u1`); the code reuses the first matching
credential (`u0`) for both databases, as the probed version strings show, and
`u1` goes unconsumed to pass 2 (where the covered (mysql, 3306) pair
suppresses it). -/
theorem deep_probe_pass1_reuses_first_credential :
    (deep_probe_databases mysqlPlainEnv "10.0.0.5" [credU0, credU1]
        [dbMysqlA, dbMysqlB]).map (fun d => d.version) =
        ["8.0.30-u0", "8.0.30-u0"] ∧
      credU1.username = "u1" ∧
        (deep_probe_mysql mysqlPlainEnv "10.0.0.5" credU1 (some dbMysqlB)).version =
          "8.0.30-u1" := by
  refine ⟨by decide, rfl, by decide⟩

/-- Witness for C7 (amended): the second MySQL database selects credential 0
(the first matching one), its slot holds that probe's output, index 0 is
consumed, and pass 2 skips consumed indices. -/
theorem deep_probe_pass1_first_match_witness :
    ([dbMysqlA, dbMysqlB][1]? = some dbMysqlB) ∧
      (deepProbeMapGet dbMysqlB.engine.value = some deep_probe_mysql) ∧
        ([credU0, credU1].enum.find?
            (fun ic => credMatchesDb ic.2 dbMysqlB.engine.value dbMysqlB) =
          some (0, credU0)) ∧
        ((deep_probe_pass1 mysqlPlainEnv "10.0.0.5" [credU0, credU1].enum
              [dbMysqlA, dbMysqlB]).1[1]? =
            some (deep_probe_mysql mysqlPlainEnv "10.0.0.5" credU0 (some dbMysqlB)) ∧
          0 ∈ (deep_probe_pass1 mysqlPlainEnv "10.0.0.5" [credU0, credU1].enum
              [dbMysqlA, dbMysqlB]).2) :=
  ⟨rfl, rfl, by decide,
    (deep_probe_pass1_first_match mysqlPlainEnv "10.0.0.5" [credU0, credU1]
        [dbMysqlA, dbMysqlB]).2.2.1 1 dbMysqlB deep_probe_mysql 0 credU0 rfl rfl
      (by decide)⟩

-- ===========================================================================
-- C8 — pass-2 appends only successful direct connections
-- ===========================================================================

/-- A deep-probe world is sound when every raised connection exception carries
a nonempty message (`str(exc)` of a real driver exception is never empty). -/
def DeepEnvSound (env : DeepEnv) : Prop :=
  (∀ h p u pw exc, env.mysql_connect h p u pw = .error exc → exc ≠ "") ∧
    (∀ h p u pw exc, env.postgres_connect h p u pw = .error exc → exc ≠ "") ∧
      (∀ h p u pw exc, env.mssql_connect h p u pw = .error exc → exc ≠ "") ∧
        (∀ h p u pw exc, env.mongo_connect h p u pw = .error exc → exc ≠ "") ∧
          ∀ h p u pw exc, env.redis_connect h p u pw = .error exc → exc ≠ ""

/-- The engine-tagged statement "this credential's direct connection attempt
succeeded": driver importable and the connection call returned a session. -/
def probe_call_ok (env : DeepEnv) (host : String) (eng : String)
    (cred : DatabaseCredential) : Prop :=
  if eng = "mysql" ∨ eng = "mariadb" then
    env.mysql_driver = true ∧
      ∃ info, env.mysql_connect host (if cred.port ≠ 0 then cred.port else 3306)
        cred.username cred.password = .ok info
  else if eng = "postgresql" then
    env.postgres_driver = true ∧
      ∃ info, env.postgres_connect host (if cred.port ≠ 0 then cred.port else 5432)
        cred.username cred.password = .ok info
  else if eng = "mssql" then
    env.mssql_driver = true ∧
      ∃ info, env.mssql_connect host (if cred.port ≠ 0 then cred.port else 1433)
        cred.username cred.password = .ok info
  else if eng = "mongodb" then
    env.mongo_driver = true ∧
      ∃ info, env.mongo_connect host (if cred.port ≠ 0 then cred.port else 27017)
        cred.username cred.password = .ok info
  else if eng = "redis" then
    env.redis_driver = true ∧
      ∃ info, env.redis_connect host (if cred.port ≠ 0 then cred.port else 6379)
        cred.username cred.password = .ok info
  else False

/-- Every MySQL probe result is tagged with the direct-connect method. -/
theorem deep_probe_mysql_method (env : DeepEnv) (host : String)
    (cred : DatabaseCredential) (ex : Option DiscoveredDatabase) :
    (deep_probe_mysql env host cred ex).discovery_method = "direct_connect" := by
  unfold deep_probe_mysql
  dsimp only
  split
  · rfl
  · split <;> rfl

/-- Every PostgreSQL probe result is tagged with the direct-connect method. -/
theorem deep_probe_postgresql_method (env : DeepEnv) (host : String)
    (cred : DatabaseCredential) (ex : Option DiscoveredDatabase) :
    (deep_probe_postgresql env host cred ex).discovery_method = "direct_connect" := by
  unfold deep_probe_postgresql
  dsimp only
  split
  · rfl
  · split <;> rfl

/-- Every SQL Server probe result is tagged with the direct-connect method. -/
theorem deep_probe_mssql_method (env : DeepEnv) (host : String)
    (cred : DatabaseCredential) (ex : Option DiscoveredDatabase) :
    (deep_probe_mssql env host cred ex).discovery_method = "direct_connect" := by
  unfold deep_probe_mssql
  dsimp only
  split
  · rfl
  · split <;> rfl

/-- Every MongoDB probe result is tagged with the direct-connect method. -/
theorem deep_probe_mongodb_method (env : DeepEnv) (host : String)
    (cred : DatabaseCredential) (ex : Option DiscoveredDatabase) :
    (deep_probe_mongodb env host cred ex).discovery_method = "direct_connect" := by
  unfold deep_probe_mongodb
  dsimp only
  split
  · rfl
  · split <;> rfl

/-- Every Redis probe result is tagged with the direct-connect method. -/
theorem deep_probe_redis_method (env : DeepEnv) (host : String)
    (cred : DatabaseCredential) (ex : Option DiscoveredDatabase) :
    (deep_probe_redis env host cred ex).discovery_method = "direct_connect" := by
  unfold deep_probe_redis
  dsimp only
  split
  · rfl
  · split <;> rfl

/-- An error-free MySQL probe record can only come from an importable driver
and a successful connection (sound worlds raise nonempty messages). -/
theorem deep_probe_mysql_success (env : DeepEnv) (host : String)
    (cred : DatabaseCredential) (ex : Option DiscoveredDatabase)
    (hmsg : ∀ h p u pw exc, env.mysql_connect h p u pw = .error exc → exc ≠ "")
    (h : (deep_probe_mysql env host cred ex).connection_error = "") :
    env.mysql_driver = true ∧
      ∃ info, env.mysql_connect host (if cred.port ≠ 0 then cred.port else 3306)
        cred.username cred.password = .ok info := by
  cases hdrv : env.mysql_driver with
  | false =>
    exfalso
    unfold deep_probe_mysql at h
    rw [hdrv] at h
    simp at h
  | true =>
    refine ⟨rfl, ?_⟩
    cases hcon : env.mysql_connect host (if cred.port ≠ 0 then cred.port else 3306)
        cred.username cred.password with
    | error exc =>
      exfalso
      unfold deep_probe_mysql at h
      rw [hdrv] at h
      simp only [Bool.not_true, Bool.false_eq_true, if_false, hcon] at h
      exact hmsg _ _ _ _ _ hcon h
    | ok info => exact ⟨info, rfl⟩

/-- An error-free PostgreSQL probe record comes from a successful
connection. -/
theorem deep_probe_postgresql_success (env : DeepEnv) (host : String)
    (cred : DatabaseCredential) (ex : Option DiscoveredDatabase)
    (hmsg : ∀ h p u pw exc, env.postgres_connect h p u pw = .error exc → exc ≠ "")
    (h : (deep_probe_postgresql env host cred ex).connection_error = "") :
    env.postgres_driver = true ∧
      ∃ info, env.postgres_connect host (if cred.port ≠ 0 then cred.port else 5432)
        cred.username cred.password = .ok info := by
  cases hdrv : env.postgres_driver with
  | false =>
    exfalso
    unfold deep_probe_postgresql at h
    rw [hdrv] at h
    simp at h
  | true =>
    refine ⟨rfl, ?_⟩
    cases hcon : env.postgres_connect host (if cred.port ≠ 0 then cred.port else 5432)
        cred.username cred.password with
    | error exc =>
      exfalso
      unfold deep_probe_postgresql at h
      rw [hdrv] at h
      simp only [Bool.not_true, Bool.false_eq_true, if_false, hcon] at h
      exact hmsg _ _ _ _ _ hcon h
    | ok info => exact ⟨info, rfl⟩

/-- An error-free SQL Server probe record comes from a successful
connection. -/
theorem deep_probe_mssql_success (env : DeepEnv) (host : String)
    (cred : DatabaseCredential) (ex : Option DiscoveredDatabase)
    (hmsg : ∀ h p u pw exc, env.mssql_connect h p u pw = .error exc → exc ≠ "")
    (h : (deep_probe_mssql env host cred ex).connection_error = "") :
    env.mssql_driver = true ∧
      ∃ info, env.mssql_connect host (if cred.port ≠ 0 then cred.port else 1433)
        cred.username cred.password = .ok info := by
  cases hdrv : env.mssql_driver with
  | false =>
    exfalso
    unfold deep_probe_mssql at h
    rw [hdrv] at h
    simp at h
  | true =>
    refine ⟨rfl, ?_⟩
    cases hcon : env.mssql_connect host (if cred.port ≠ 0 then cred.port else 1433)
        cred.username cred.password with
    | error exc =>
      exfalso
      unfold deep_probe_mssql at h
      rw [hdrv] at h
      simp only [Bool.not_true, Bool.false_eq_true, if_false, hcon] at h
      exact hmsg _ _ _ _ _ hcon h
    | ok info => exact ⟨info, rfl⟩

/-- An error-free MongoDB probe record comes from a successful connection. -/
theorem deep_probe_mongodb_success (env : DeepEnv) (host : String)
    (cred : DatabaseCredential) (ex : Option DiscoveredDatabase)
    (hmsg : ∀ h p u pw exc, env.mongo_connect h p u pw = .error exc → exc ≠ "")
    (h : (deep_probe_mongodb env host cred ex).connection_error = "") :
    env.mongo_driver = true ∧
      ∃ info, env.mongo_connect host (if cred.port ≠ 0 then cred.port else 27017)
        cred.username cred.password = .ok info := by
  cases hdrv : env.mongo_driver with
  | false =>
    exfalso
    unfold deep_probe_mongodb at h
    rw [hdrv] at h
    simp at h
  | true =>
    refine ⟨rfl, ?_⟩
    cases hcon : env.mongo_connect host (if cred.port ≠ 0 then cred.port else 27017)
        cred.username cred.password with
    | error exc =>
      exfalso
      unfold deep_probe_mongodb at h
      rw [hdrv] at h
      simp only [Bool.not_true, Bool.false_eq_true, if_false, hcon] at h
      exact hmsg _ _ _ _ _ hcon h
    | ok info => exact ⟨info, rfl⟩

/-- An error-free Redis probe record comes from a successful connection. -/
theorem deep_probe_redis_success (env : DeepEnv) (host : String)
    (cred : DatabaseCredential) (ex : Option DiscoveredDatabase)
    (hmsg : ∀ h p u pw exc, env.redis_connect h p u pw = .error exc → exc ≠ "")
    (h : (deep_probe_redis env host cred ex).connection_error = "") :
    env.redis_driver = true ∧
      ∃ info, env.redis_connect host (if cred.port ≠ 0 then cred.port else 6379)
        cred.username cred.password = .ok info := by
  cases hdrv : env.redis_driver with
  | false =>
    exfalso
    unfold deep_probe_redis at h
    rw [hdrv] at h
    simp at h
  | true =>
    refine ⟨rfl, ?_⟩
    cases hcon : env.redis_connect host (if cred.port ≠ 0 then cred.port else 6379)
        cred.username cred.password with
    | error exc =>
      exfalso
      unfold deep_probe_redis at h
      rw [hdrv] at h
      simp only [Bool.not_true, Bool.false_eq_true, if_false, hcon] at h
      exact hmsg _ _ _ _ _ hcon h
    | ok info => exact ⟨info, rfl⟩

/-- Any dispatched probe function tags its output and, when the output is
error-free in a sound world, performed a successful connection. -/
theorem mapGet_probe_good (eng : String) (f : DeepProbeFn)
    (h : deepProbeMapGet eng = some f) (env : DeepEnv) (host : String)
    (cred : DatabaseCredential) (hs : DeepEnvSound env)
    (hok : (f env host cred none).connection_error = "") :
    (f env host cred none).discovery_method = "direct_connect" ∧
      probe_call_ok env host eng cred := by
  unfold deepProbeMapGet at h
  split_ifs at h with h1 h2 h3 h4 h5 h6
  · subst h1
    injection h with h
    subst h
    refine ⟨deep_probe_mysql_method .., ?_⟩
    unfold probe_call_ok
    rw [if_pos (Or.inl rfl)]
    exact deep_probe_mysql_success env host cred none hs.1 hok
  · subst h2
    injection h with h
    subst h
    refine ⟨deep_probe_mysql_method .., ?_⟩
    unfold probe_call_ok
    rw [if_pos (Or.inr rfl)]
    exact deep_probe_mysql_success env host cred none hs.1 hok
  · subst h3
    injection h with h
    subst h
    refine ⟨deep_probe_postgresql_method .., ?_⟩
    unfold probe_call_ok
    rw [if_neg (by simp), if_pos rfl]
    exact deep_probe_postgresql_success env host cred none hs.2.1 hok
  · subst h4
    injection h with h
    subst h
    refine ⟨deep_probe_mssql_method .., ?_⟩
    unfold probe_call_ok
    rw [if_neg (by simp), if_neg (by simp), if_pos rfl]
    exact deep_probe_mssql_success env host cred none hs.2.2.1 hok
  · subst h5
    injection h with h
    subst h
    refine ⟨deep_probe_mongodb_method .., ?_⟩
    unfold probe_call_ok
    rw [if_neg (by simp), if_neg (by simp), if_neg (by simp), if_pos rfl]
    exact deep_probe_mongodb_success env host cred none hs.2.2.2.1 hok
  · subst h6
    injection h with h
    subst h
    refine ⟨deep_probe_redis_method .., ?_⟩
    unfold probe_call_ok
    rw [if_neg (by simp), if_neg (by simp), if_neg (by simp), if_neg (by simp),
      if_pos rfl]
    exact deep_probe_redis_success env host cred none hs.2.2.2.2 hok

/-- The property every record appended by pass 2 satisfies: error-free,
tagged `direct_connect`, and produced by a dispatched probe whose connection
succeeded. -/
def pass2Good (env : DeepEnv) (host : String) (d : DiscoveredDatabase) : Prop :=
  d.connection_error = "" ∧ d.discovery_method = "direct_connect" ∧
    ∃ eng f cred, deepProbeMapGet eng = some f ∧ d = f env host cred none ∧
      probe_call_ok env host eng cred

/-- One auto-branch step preserves the pass-2 invariant. -/
theorem pass2_auto_step_good (env : DeepEnv) (host : String)
    (cred : DatabaseCredential) (hs : DeepEnvSound env)
    (acc : List (String × Nat) × List DiscoveredDatabase) (pe : Nat × String)
    (hacc : ∀ d ∈ acc.2, pass2Good env host d) :
    ∀ d ∈ (pass2_auto_step env host cred acc pe).2, pass2Good env host d := by
  unfold pass2_auto_step
  dsimp only
  split
  · exact hacc
  · cases hm : deepProbeMapGet pe.2 with
    | none => exact hacc
    | some f =>
      dsimp only
      split
      · rename_i hguard
        intro d hd
        rcases List.mem_append.mp hd with hd | hd
        · exact hacc d hd
        · rw [List.mem_singleton] at hd
          subst hd
          obtain ⟨hdm, hpo⟩ := mapGet_probe_good pe.2 f hm env host
            (mkDatabaseCredential pe.2 cred.username cred.password pe.1 cred.host) hs hguard
          exact ⟨hguard, hdm, pe.2, f, _, hm, rfl, hpo⟩
      · exact hacc

/-- The auto-branch fold preserves the pass-2 invariant. -/
theorem pass2_auto_fold_good (env : DeepEnv) (host : String)
    (cred : DatabaseCredential) (hs : DeepEnvSound env) :
    ∀ (pes : List (Nat × String)) (acc : List (String × Nat) × List DiscoveredDatabase),
      (∀ d ∈ acc.2, pass2Good env host d) →
      ∀ d ∈ (pes.foldl (pass2_auto_step env host cred) acc).2, pass2Good env host d
  | [], _, hacc => hacc
  | pe :: pes, acc, hacc => by
    rw [List.foldl_cons]
    exact pass2_auto_fold_good env host cred hs pes _
      (pass2_auto_step_good env host cred hs acc pe hacc)

/-- One pass-2 step preserves the invariant. -/
theorem pass2_step_good (env : DeepEnv) (host : String) (used : List Nat)
    (hs : DeepEnvSound env) (acc : List (String × Nat) × List DiscoveredDatabase)
    (ic : Nat × DatabaseCredential)
    (hacc : ∀ d ∈ acc.2, pass2Good env host d) :
    ∀ d ∈ (pass2_step env host used acc ic).2, pass2Good env host d := by
  unfold pass2_step
  dsimp only
  split
  · exact hacc
  · split
    · exact pass2_auto_fold_good env host ic.2 hs enginePortMap acc hacc
    · split
      all_goals
        split
        · exact hacc
        · cases hm : deepProbeMapGet ic.2.engine with
          | none => exact hacc
          | some f =>
            dsimp only
            split
            · rename_i hguard
              intro d hd
              rcases List.mem_append.mp hd with hd | hd
              · exact hacc d hd
              · rw [List.mem_singleton] at hd
                subst hd
                obtain ⟨hdm, hpo⟩ := mapGet_probe_good ic.2.engine f hm env host ic.2 hs hguard
                exact ⟨hguard, hdm, ic.2.engine, f, _, hm, rfl, hpo⟩
            · exact hacc

/-- The pass-2 fold preserves the invariant. -/
theorem pass2_fold_good (env : DeepEnv) (host : String) (used : List Nat)
    (hs : DeepEnvSound env) :
    ∀ (ics : List (Nat × DatabaseCredential))
      (acc : List (String × Nat) × List DiscoveredDatabase),
      (∀ d ∈ acc.2, pass2Good env host d) →
      ∀ d ∈ (ics.foldl (pass2_step env host used) acc).2, pass2Good env host d
  | [], _, hacc => hacc
  | ic :: ics, acc, hacc => by
    rw [List.foldl_cons]
    exact pass2_fold_good env host used hs ics _
      (pass2_step_good env host used hs acc ic hacc)

/-- C8 as amended: in a sound world every record beyond the enriched input
prefix — i.e. every record pass 2 appended — is error-free, comes from a
dispatched probe function whose direct connection succeeded, and carries
`discovery_method = "direct_connect"` (with an underscore); a failed attempt
is discarded silently, contributing neither a record nor an error. -/
theorem deep_probe_pass2_only_successes (env : DeepEnv) (host : String)
    (creds : List DatabaseCredential) (dbs : List DiscoveredDatabase)
    (hs : DeepEnvSound env) :
    ∀ d ∈ (deep_probe_databases env host creds dbs).drop dbs.length,
      d.connection_error = "" ∧ d.discovery_method = "direct_connect" ∧
        ∃ eng f cred, deepProbeMapGet eng = some f ∧ d = f env host cred none ∧
          probe_call_ok env host eng cred := by
  intro d hd
  have hlen : (deep_probe_pass1 env host creds.enum dbs).1.length = dbs.length := by
    unfold deep_probe_pass1
    rw [deep_probe_pass1_eq]
    simp
  unfold deep_probe_databases at hd
  dsimp only at hd
  rw [← hlen, List.drop_left] at hd
  exact pass2_fold_good env host (deep_probe_pass1 env host creds.enum dbs).2 hs
    creds.enum _ (by intro d hd; cases hd) d hd

/-- Counterexample to C8 as stated: the tag written by every deep probe is
`direct_connect` (underscore), not the claimed `direct-connect` (hyphen), as
the record appended for a successful MySQL connection shows. -/
theorem deep_probe_direct_connect_tag_underscore :
    ((deep_probe_databases mysqlPlainEnv "10.0.0.5" [credU0] []).map
        (fun d => d.discovery_method)) = ["direct_connect"] ∧
      ("direct_connect" : String) ≠ "direct-connect" := by
  exact ⟨by decide, by decide⟩

/-- The fixture world with one reachable MySQL server raises nonempty
messages everywhere. -/
theorem mysqlPlainEnv_sound : DeepEnvSound mysqlPlainEnv := by
  refine ⟨?_, ?_, ?_, ?_, ?_⟩ <;> intro h p u pw exc hx
  · simp [mysqlPlainEnv, unreachableDeepEnv] at hx
  all_goals
    simp only [mysqlPlainEnv, unreachableDeepEnv, Except.error.injEq] at hx
    subst hx
    decide

/-- Witness for C8 (amended): in the sound one-MySQL-server world with one
credential and no existing databases, the single appended record satisfies
every guarantee. -/
theorem deep_probe_pass2_only_successes_witness :
    DeepEnvSound mysqlPlainEnv ∧
      ∀ d ∈ (deep_probe_databases mysqlPlainEnv "10.0.0.5" [credU0] []).drop
          ([] : List DiscoveredDatabase).length,
        d.connection_error = "" ∧ d.discovery_method = "direct_connect" ∧
          ∃ eng f cred, deepProbeMapGet eng = some f ∧
            d = f mysqlPlainEnv "10.0.0.5" cred none ∧
              probe_call_ok mysqlPlainEnv "10.0.0.5" eng cred :=
  ⟨mysqlPlainEnv_sound,
    deep_probe_pass2_only_successes mysqlPlainEnv "10.0.0.5" [credU0] []
      mysqlPlainEnv_sound⟩

-- ===========================================================================
-- C9 — re-running the deep prober
-- ===========================================================================

/-- C9 as amended: every run of `deep_probe_databases` (a re-run included)
keeps each input record exactly once, in order, enriched in place — the output
begins with precisely the pass-1 enrichment of the input list, so no entry is
duplicated or dropped — and can only grow beyond that prefix through pass-2
discoveries.  (The count itself can grow on a re-run; see the
counterexample.) -/
theorem deep_probe_preserves_entries (env : DeepEnv) (host : String)
    (creds : List DatabaseCredential) (dbs : List DiscoveredDatabase) :
    (deep_probe_databases env host creds dbs).take dbs.length =
        dbs.map (pass1_enrich env host creds.enum) ∧
      dbs.length ≤ (deep_probe_databases env host creds dbs).length := by
  have hp1 : deep_probe_pass1 env host creds.enum dbs =
      (dbs.map (pass1_enrich env host creds.enum),
        dbs.filterMap (pass1_pick creds.enum)) := by
    unfold deep_probe_pass1
    rw [deep_probe_pass1_eq]
    simp
  unfold deep_probe_databases
  dsimp only
  rw [hp1]
  dsimp only
  constructor
  · rw [show dbs.length = (dbs.map (pass1_enrich env host creds.enum)).length by
        rw [List.length_map], List.take_left]
  · rw [List.length_append, List.length_map]
    exact Nat.le_add_right _ _

/-- Counterexample to C9 as stated: two MySQL credentials against a server
that turns out to be MariaDB.  The first run appends two records whose engine
was rewritten to `mariadb`; on the re-run, pass 1 matches both records to
credential 0 (by port), credential 1 stays unconsumed, and since the covered
set holds (mariadb, 3306) but the credential probes under (mysql, 3306),
pass 2 appends a third record: the entry count grows from 2 to 3. -/
theorem deep_probe_rerun_grows :
    (deep_probe_databases mariaDetectEnv "10.0.0.5" [credU0, credU1] []).length = 2 ∧
      (deep_probe_databases mariaDetectEnv "10.0.0.5" [credU0, credU1]
          (deep_probe_databases mariaDetectEnv "10.0.0.5" [credU0, credU1] [])).length = 3 := by
  exact ⟨by decide, by decide⟩

-- ===========================================================================
-- C10 — unregistered engine tags are silently ignored in pass 2
-- ===========================================================================

/-- C10: a credential whose engine tag is neither `auto` nor one of the six
registered tags (including `oracle` and any misspelling) has no dispatch
entry, and its pass-2 step is a no-op for every world, consumed-index set and
accumulator: no connection is attempted (the result does not depend on the
oracle at all), no record is appended, and no error is surfaced. -/
theorem deep_probe_unregistered_engine_ignored (cred : DatabaseCredential)
    (h : cred.engine ∉ ["auto", "mysql", "mariadb", "postgresql", "mssql",
      "mongodb", "redis"]) :
    deepProbeMapGet cred.engine = none ∧
      ∀ (env : DeepEnv) (host : String) (used : List Nat)
        (acc : List (String × Nat) × List DiscoveredDatabase) (ci : Nat),
        pass2_step env host used acc (ci, cred) = acc := by
  have hmap : deepProbeMapGet cred.engine = none := by
    unfold deepProbeMapGet
    rw [if_neg, if_neg, if_neg, if_neg, if_neg, if_neg] <;>
      exact fun he => h (by simp [he])
  refine ⟨hmap, ?_⟩
  intro env host used acc ci
  unfold pass2_step
  dsimp only
  split
  · rfl
  · rw [if_neg (show ¬cred.engine = "auto" from fun he => h (by simp [he]))]
    split
    all_goals
      split
      · rfl
      · rw [hmap]

/-- Witness for C10 at the `oracle` credential: no dispatch entry, and its
pass-2 step on a concrete world and accumulator changes nothing. -/
theorem deep_probe_unregistered_engine_ignored_witness :
    deepProbeMapGet credOracle.engine = none ∧
      pass2_step unreachableDeepEnv "10.0.0.5" [] ([], []) (0, credOracle) = ([], []) := by
  have h := deep_probe_unregistered_engine_ignored credOracle (by decide)
  exact ⟨h.1, h.2 unreachableDeepEnv "10.0.0.5" [] ([], []) 0⟩

end AzureMigrate
